import Mathlib

/-!
# matoura-couture backend: request handlers and their contract

A shallow embedding of `backend/app.js` and `backend/routes/products.js`.

* Request bodies are JSON values (`JsVal`); a field that is not in the body is
  `JsVal.undefined`, as after `const { email, password, role } = req.body`.
* The persistent state (`State`) is the `users` table, the `products` table and
  the files under `public/images/`.
* The libraries the handlers call (`bcryptjs`, `jsonwebtoken`, `path`) are the
  fields of `Lib`; what the handlers rely on is stated as hypotheses on them.
* The file handling of multer's `upload.single('image')` is `multerSingle`:
  one file, under the field name `image`; any other file makes multer refuse
  the form and pass an error to `next`.
* A handler returns a `Result`: the state after the request, the outcome (the
  response a handler sent, the response Express sent itself, or the error that
  left the handler without a response) and the log of the steps that ran.
-/

namespace Matoura

deriving instance DecidableEq for Except

/-! ## JavaScript values -/

/-- A value found in a parsed request body or bound to a SQL placeholder.
Arrays and objects are kept as their JSON text: the handlers only test them
for truthiness and pass them on. Numbers are integers. -/
inductive JsVal where
  | undefined
  | null
  | bool (b : Bool)
  | num (n : Int)
  | str (s : String)
  | arr (json : String)
  | obj (json : String)
  deriving DecidableEq, Repr

/-- JavaScript truthiness: `!v` is `!(truthy v)`. -/
def JsVal.truthy : JsVal → Bool
  | .undefined => false
  | .null => false
  | .bool b => b
  | .num n => n != 0
  | .str s => s != ""
  | .arr _ => true
  | .obj _ => true

/-- The JavaScript expression `a || b`. -/
def JsVal.or (a b : JsVal) : JsVal :=
  if a.truthy then a else b

/-- The JavaScript operator `typeof`. -/
def JsVal.typeof : JsVal → String
  | .undefined => "undefined"
  | .null => "object"
  | .bool _ => "boolean"
  | .num _ => "number"
  | .str _ => "string"
  | .arr _ => "object"
  | .obj _ => "object"

/-! ## Persistent state -/

/-- A row of the `users` table. -/
structure UserRow where
  id : Nat
  email : JsVal
  password : String
  role : JsVal
  deriving DecidableEq, Repr

/-- A row of the `products` table. -/
structure ProductRow where
  id : Nat
  name : JsVal
  description : JsVal
  price : JsVal
  fabric : JsVal
  color : JsVal
  image : JsVal
  deriving DecidableEq, Repr

/-- The persistent state: both tables and the files of `public/images/`
(name and content). -/
structure State where
  users : List UserRow
  products : List ProductRow
  files : List (String × String)
  deriving DecidableEq, Repr

/-! ## Responses -/

/-- The body of a response. -/
inductive Body where
  | message (m : String)
  | token (t : String)
  | text (t : String)
  | rows (ps : List ProductRow)
  deriving DecidableEq, Repr

/-- An HTTP response: `res.status(s).json(b)`. -/
structure Response where
  status : Nat
  body : Body
  deriving DecidableEq, Repr

/-- What became of a request: a handler sent a response; or no handler did and
Express answered itself (its final handler: 404 when the chain runs out, 500
when a middleware passes an error to `next`); or an error left the handler (a
rejected promise or a thrown exception) and the handler sent no response. -/
inductive Outcome where
  | responded (r : Response)
  | framework (r : Response)
  | escaped (error : String)
  deriving DecidableEq, Repr

/-- The steps a request can run through. -/
inductive Step where
  | verifyToken
  | verifyAdmin
  | upload
  | productHandler
  | bcryptHash
  | bcryptCompare
  | jwtSign
  | selectProducts
  | insertUser
  | selectUser
  | insertProduct
  | updateProduct
  deriving DecidableEq, Repr

/-- The result of handling one request. -/
structure Result where
  state : State
  outcome : Outcome
  log : List Step
  deriving DecidableEq, Repr

/-- The status of the response the client gets, if one was sent. -/
def Outcome.status? : Outcome → Option Nat
  | .responded r => some r.status
  | .framework r => some r.status
  | .escaped _ => none

/-! ## Libraries -/

/-- The payload of a session token: what `generateToken` signs, with the
issue and expiry times `jwt.sign` adds (seconds). -/
structure Claims where
  id : Nat
  email : JsVal
  role : JsVal
  iat : Nat
  exp : Nat
  deriving DecidableEq, Repr

/-- The library functions the handlers call. `hash salt s` is the bcrypt hash
of the string `s` under the salt the library draws; `compare s h` tells whether
`s` matches the hash `h`; `jwtEncode` signs a payload under `JWT_SECRET` and
`jwtDecode` checks the signature under the same secret; `extname` is
`path.extname`; `sqlIdEq p i` is the comparison `id = ?` of the store between
the bound parameter `p` and the id `i` of a row. -/
structure Lib where
  hash : Nat → String → String
  compare : String → String → Bool
  jwtEncode : Claims → String
  jwtDecode : String → Option Claims
  extname : String → String
  sqlIdEq : String → Nat → Bool

/-- The call `bcrypt.hash(s, 10)`: the promise is rejected unless `s` is a string. -/
def bcryptHash (lib : Lib) (salt : Nat) : JsVal → Except String String
  | .str s => .ok (lib.hash salt s)
  | v => .error ("Illegal arguments: " ++ v.typeof ++ ", number")

/-- The call `bcrypt.compare(s, hash)` with a stored hash: the promise is
rejected unless `s` is a string. -/
def bcryptCompare (lib : Lib) (s : JsVal) (hash : String) : Except String Bool :=
  match s with
  | .str p => .ok (lib.compare p hash)
  | v => .error ("Illegal arguments: " ++ v.typeof ++ ", string")

/-- The call `jwt.verify(token, secret)`: the payload when the signature is
good and the token has not expired at `now` (milliseconds). -/
def jwtVerify (lib : Lib) (now : Nat) (token : String) : Except String Claims :=
  match lib.jwtDecode token with
  | none => .error "invalid token"
  | some c => if now / 1000 < c.exp then .ok c else .error "jwt expired"

/-- The function `generateToken`: sign id, email and role of the user row,
expiry one hour after `now` (milliseconds). -/
def generateToken (lib : Lib) (now : Nat) (user : UserRow) : String :=
  lib.jwtEncode
    { id := user.id, email := user.email, role := user.role,
      iat := now / 1000, exp := now / 1000 + 3600 }

/-! ## The store -/

/-- The id the store generates for a new row: one more than the largest in use. -/
def freshId (ids : List Nat) : Nat :=
  ids.foldl max 0 + 1

/-- Modelled from the spec: the schema of the `users` table is not in the
source. `INSERT INTO users (email, password, role) VALUES (?, ?, ?)`: an error
when the store is unreachable (`fault`) or the email is already present
(emails are unique); otherwise one row is added, with a generated id. Values
are stored as bound. -/
def Store.insertUser (fault : Bool) (st : State) (email : JsVal) (password : String)
    (role : JsVal) : Except String State :=
  if fault then .error "store unreachable"
  else if st.users.any (fun u => u.email == email) then .error "duplicate entry"
  else .ok { st with users := st.users ++
    [{ id := freshId (st.users.map UserRow.id), email := email, password := password,
       role := role }] }

/-- The statement `SELECT * FROM users WHERE email = ?`. -/
def Store.selectUsersByEmail (fault : Bool) (st : State) (email : JsVal) :
    Except String (List UserRow) :=
  if fault then .error "store unreachable"
  else .ok (st.users.filter (fun u => u.email == email))

/-! ## Registration and login (`app.js`) -/

/-- The body of `POST /api/register` after destructuring. -/
structure RegisterBody where
  email : JsVal
  password : JsVal
  role : JsVal
  deriving DecidableEq, Repr

/-- The body of `POST /api/login` after destructuring. -/
structure LoginBody where
  email : JsVal
  password : JsVal
  deriving DecidableEq, Repr

def msgRegisterRequired : String := "L\x27email et le mot de passe sont requis."
def msgRegisterFailed : String := "Erreur lors de l\x27inscription de l\x27utilisateur."
def msgRegisterDone : String := "Utilisateur créé avec succès."
def msgLoginRequired : String := "Email et mot de passe requis."
def msgLoginIncorrect : String := "Email ou mot de passe incorrect."

/-- The handler of `POST /api/register`. -/
def register (lib : Lib) (salt : Nat) (fault : Bool) (st : State) (b : RegisterBody) : Result :=
  if !b.email.truthy || !b.password.truthy then
    { state := st, outcome := .responded ⟨400, .message msgRegisterRequired⟩, log := [] }
  else
    match bcryptHash lib salt b.password with
    | .error e => { state := st, outcome := .escaped e, log := [.bcryptHash] }
    | .ok hashedPassword =>
      match Store.insertUser fault st b.email hashedPassword (b.role.or (.str "client")) with
      | .error _ =>
        { state := st, outcome := .responded ⟨500, .message msgRegisterFailed⟩,
          log := [.bcryptHash, .insertUser] }
      | .ok st1 =>
        { state := st1, outcome := .responded ⟨201, .message msgRegisterDone⟩,
          log := [.bcryptHash, .insertUser] }

/-- The handler of `POST /api/login`. -/
def login (lib : Lib) (now : Nat) (fault : Bool) (st : State) (b : LoginBody) : Result :=
  if !b.email.truthy || !b.password.truthy then
    { state := st, outcome := .responded ⟨400, .message msgLoginRequired⟩, log := [] }
  else
    match Store.selectUsersByEmail fault st b.email with
    | .error _ =>
      { state := st, outcome := .responded ⟨400, .message msgLoginIncorrect⟩,
        log := [.selectUser] }
    | .ok [] =>
      { state := st, outcome := .responded ⟨400, .message msgLoginIncorrect⟩,
        log := [.selectUser] }
    | .ok (user :: _) =>
      match bcryptCompare lib b.password user.password with
      | .error e => { state := st, outcome := .escaped e, log := [.selectUser, .bcryptCompare] }
      | .ok false =>
        { state := st, outcome := .responded ⟨400, .message msgLoginIncorrect⟩,
          log := [.selectUser, .bcryptCompare] }
      | .ok true =>
        { state := st, outcome := .responded ⟨200, .token (generateToken lib now user)⟩,
          log := [.selectUser, .bcryptCompare, .jwtSign] }

/-! ## Access control middleware (`app.js`) -/

/-- The JavaScript call `s.split(c)` for a one-character separator, on the
characters of `s`. -/
def splitOnChar (sep : Char) : List Char → List (List Char)
  | [] => [[]]
  | c :: cs =>
    if c = sep then [] :: splitOnChar sep cs
    else
      match splitOnChar sep cs with
      | [] => [[c]]
      | h :: t => (c :: h) :: t

/-- The expression `req.header('Authorization')?.split(' ')[1]`; `none` is
`undefined`. -/
def bearerToken (authorization : Option String) : Option String :=
  match authorization with
  | none => none
  | some h => ((splitOnChar ' ' h.data).get? 1).map String.mk

/-- A text field of a multipart form as multer delivers it: absent, one string,
or (a repeated or bracketed name) an array or object. -/
inductive FormField where
  | absent
  | text (s : String)
  | many (json : String)
  deriving DecidableEq, Repr

/-- The value of a form field in `req.body`. -/
def FormField.toJs : FormField → JsVal
  | .absent => .undefined
  | .text s => .str s
  | .many j => .obj j

/-- A file part of a multipart form: the name of its field, the name of the
file and its content. -/
structure Upload where
  fieldname : String
  originalname : String
  content : String
  deriving DecidableEq, Repr

/-- What a `POST /api/products` request carries: a JSON body, read by
`express.json()`, or a multipart form, read by multer: its text fields and its
file parts, in the order they are sent. Only a multipart form can carry
files. -/
inductive ProductPayload where
  | json (name description price : JsVal)
  | multipart (name description price : FormField) (files : List Upload)
  deriving DecidableEq, Repr

/-- The fields the product handler reads from `req.body`. -/
structure ProductBody where
  name : JsVal
  description : JsVal
  price : JsVal
  deriving DecidableEq, Repr

/-- The request object as the middleware chain of `POST /api/products` sees it:
`user` is `req.user`, `body` is `req.body`, `file` is `req.file.filename`. -/
structure Req where
  authorization : Option String
  payload : ProductPayload
  user : Option Claims
  body : ProductBody
  file : Option String
  deriving DecidableEq, Repr

/-- The request object after `express.json()`: a JSON body is parsed, a
multipart one is left for multer. -/
def Req.incoming (authorization : Option String) (payload : ProductPayload) : Req :=
  { authorization := authorization, payload := payload, user := none,
    body :=
      match payload with
      | .json n d p => ⟨n, d, p⟩
      | .multipart _ _ _ _ => ⟨.undefined, .undefined, .undefined⟩,
    file := none }

/-- What a middleware does: call `next()`, end the request (with the steps it
ran itself), or pass an error on with `next(err)`. -/
inductive MwResult where
  | next (st : State) (req : Req)
  | done (st : State) (out : Outcome) (log : List Step)
  | fail (st : State) (error : String)
  deriving DecidableEq, Repr

def msgTokenMissing : String := "Accès refusé, token manquant."
def msgTokenInvalid : String := "Token invalide."
def msgAdminRequired : String := "Accès refusé, rôle d\x27admin requis."
def msgFieldsRequired : String := "Tous les champs doivent être remplis."
def msgProductFailed : String := "Erreur lors de l\x27ajout du produit."
def msgProductDone : String := "Produit ajouté avec succès."

/-- The middleware `verifyToken`. -/
def verifyToken (lib : Lib) (now : Nat) (st : State) (req : Req) : MwResult :=
  match bearerToken req.authorization with
  | none => .done st (.responded ⟨401, .message msgTokenMissing⟩) []
  | some token =>
    if token = "" then .done st (.responded ⟨401, .message msgTokenMissing⟩) []
    else
      match jwtVerify lib now token with
      | .ok decoded => .next st { req with user := some decoded }
      | .error _ => .done st (.responded ⟨401, .message msgTokenInvalid⟩) []

/-- The middleware `verifyAdmin`. Reading `req.user.role` throws when
`req.user` is not set. -/
def verifyAdmin (st : State) (req : Req) : MwResult :=
  match req.user with
  | none => .done st (.escaped "TypeError: Cannot read properties of undefined") []
  | some user =>
    if user.role ≠ .str "admin" then
      .done st (.responded ⟨403, .message msgAdminRequired⟩) []
    else .next st req

/-! ## Product creation (`app.js`) -/

/-- The `filename` callback of the multer storage:
`Date.now() + path.extname(file.originalname)`. -/
def uploadFilename (lib : Lib) (now : Nat) (originalname : String) : String :=
  toString now ++ lib.extname originalname

/-- Writing a file into `public/images/`. -/
def writeFile (name content : String) (files : List (String × String)) :
    List (String × String) :=
  files.filter (fun f => f.1 ≠ name) ++ [(name, content)]

/-- Removing a file from `public/images/` (`fs.unlink`). -/
def removeFile (name : String) (files : List (String × String)) : List (String × String) :=
  files.filter (fun f => f.1 ≠ name)

/-- What multer makes of the file parts of a form. -/
inductive Parsed where
  | accepted (file : Option Upload)
  | refused (written : Option Upload)
  deriving DecidableEq, Repr

/-- The file handling of `upload.single('image')`. A part without a file name
is skipped. One file is allowed, under the field name `image`: it is written
to the storage when it arrives. A file under another field name, or any file
after the first, makes multer refuse the form (`LIMIT_UNEXPECTED_FILE`); the
result then tells which file had been written by that time. -/
def multerSingle (files : List Upload) : Parsed :=
  match files.filter (fun f => f.originalname ≠ "") with
  | [] => .accepted none
  | f :: rest =>
    if f.fieldname = "image" then
      match rest with
      | [] => .accepted (some f)
      | _ :: _ => .refused (some f)
    else .refused none

/-- The middleware `upload.single('image')`. A request that is not a multipart
form passes through. A form multer accepts is parsed into `req.body`, and its
file, when there is one, is written to `public/images/` under the generated
name and described in `req.file`. When multer refuses the form it removes the
file it has written and passes the error to `next`. -/
def uploadSingle (lib : Lib) (now : Nat) (st : State) (req : Req) : MwResult :=
  match req.payload with
  | .json _ _ _ => .next st req
  | .multipart n d p files =>
    match multerSingle files with
    | .accepted none =>
      .next st { req with body := ⟨n.toJs, d.toJs, p.toJs⟩ }
    | .accepted (some f) =>
      .next
        { users := st.users, products := st.products,
          files := writeFile (uploadFilename lib now f.originalname) f.content st.files }
        { req with body := ⟨n.toJs, d.toJs, p.toJs⟩,
                   file := some (uploadFilename lib now f.originalname) }
    | .refused none => .fail st "MulterError: Unexpected field"
    | .refused (some f) =>
      .fail
        { users := st.users, products := st.products,
          files := removeFile (uploadFilename lib now f.originalname)
            (writeFile (uploadFilename lib now f.originalname) f.content st.files) }
        "MulterError: Unexpected field"

/-- Modelled from the spec: the schema of the `products` table is not in the
source. An `INSERT INTO products`: an error when the statement fails
(`fault`); otherwise one row is added, with a generated id. -/
def Store.insertProduct (fault : Bool) (st : State)
    (name description price fabric color image : JsVal) : Except String State :=
  if fault then .error "store error"
  else .ok { st with products := st.products ++
    [{ id := freshId (st.products.map ProductRow.id), name := name,
       description := description, price := price, fabric := fabric, color := color,
       image := image }] }

/-- The statement `SELECT * FROM products`. -/
def Store.selectProducts (fault : Bool) (st : State) : Except String (List ProductRow) :=
  if fault then .error "store error" else .ok st.products

/-- The last handler of `POST /api/products`. -/
def productHandler (fault : Bool) (st : State) (req : Req) : MwResult :=
  let image : JsVal :=
    match req.file with
    | some filename => .str filename
    | none => .null
  if !req.body.name.truthy || !req.body.description.truthy || !req.body.price.truthy
      || !image.truthy then
    .done st (.responded ⟨400, .message msgFieldsRequired⟩) []
  else
    match Store.insertProduct fault st req.body.name req.body.description req.body.price
        .null .null image with
    | .error _ => .done st (.responded ⟨500, .message msgProductFailed⟩) [.insertProduct]
    | .ok st1 => .done st1 (.responded ⟨201, .message msgProductDone⟩) [.insertProduct]

/-- Express runs the handlers of a route in order; each one runs when the one
before it calls `next()`. When the last one calls `next()` the framework
answers 404. When one calls `next(err)` the handlers after it are skipped and,
the application having no error handler, the framework answers 500. -/
def runChain : List (Step × (State → Req → MwResult)) → State → Req → Result
  | [], st, _ => { state := st, outcome := .framework ⟨404, .text "Cannot POST"⟩, log := [] }
  | (s, m) :: rest, st, req =>
    match m st req with
    | .next st1 req1 =>
      { state := (runChain rest st1 req1).state, outcome := (runChain rest st1 req1).outcome,
        log := s :: (runChain rest st1 req1).log }
    | .done st1 out l => { state := st1, outcome := out, log := s :: l }
    | .fail st1 err => { state := st1, outcome := .framework ⟨500, .text err⟩, log := [s] }

/-- The route `app.post('/api/products', verifyToken, verifyAdmin,
upload.single('image'), handler)`. -/
def postProducts (lib : Lib) (now : Nat) (fault : Bool) (st : State)
    (authorization : Option String) (payload : ProductPayload) : Result :=
  runChain
    [(.verifyToken, verifyToken lib now), (.verifyAdmin, verifyAdmin),
     (.upload, uploadSingle lib now), (.productHandler, productHandler fault)]
    st (Req.incoming authorization payload)

/-- The handler of `GET /api/products`. -/
def getProducts (fault : Bool) (st : State) : Result :=
  match Store.selectProducts fault st with
  | .error _ =>
    { state := st, outcome := .responded ⟨500, .text "Erreur interne du serveur"⟩,
      log := [.selectProducts] }
  | .ok results =>
    { state := st, outcome := .responded ⟨200, .rows results⟩, log := [.selectProducts] }

/-! ## The product router (`routes/products.js`) -/

/-- The body of `POST /products` and `PUT /products/:id` after destructuring. -/
structure ProductFields where
  name : JsVal
  description : JsVal
  price : JsVal
  fabric : JsVal
  color : JsVal
  image : JsVal
  deriving DecidableEq, Repr

/-- Modelled from the spec: the schema of the `products` table is not in the
source. `UPDATE products SET name = ?, description = ?, price = ?, fabric = ?,
color = ?, image = ? WHERE id = ?`: an error when the statement fails
(`fault`); otherwise every row whose id the store finds equal to the bound
parameter gets the six values. -/
def Store.updateProduct (lib : Lib) (fault : Bool) (st : State) (id : String)
    (b : ProductFields) : Except String State :=
  if fault then .error "store error"
  else .ok { st with products := st.products.map (fun r =>
    if lib.sqlIdEq id r.id then
      { r with name := b.name, description := b.description, price := b.price,
               fabric := b.fabric, color := b.color, image := b.image }
    else r) }

/-- The handler of `GET /products`. -/
def routerGetProducts (fault : Bool) (st : State) : Result :=
  match Store.selectProducts fault st with
  | .error _ =>
    { state := st, outcome := .responded ⟨500, .message "Erreur serveur"⟩,
      log := [.selectProducts] }
  | .ok results =>
    { state := st, outcome := .responded ⟨200, .rows results⟩, log := [.selectProducts] }

/-- The handler of `POST /products`. -/
def routerPostProduct (fault : Bool) (st : State) (b : ProductFields) : Result :=
  match Store.insertProduct fault st b.name b.description b.price b.fabric b.color b.image with
  | .error _ =>
    { state := st, outcome := .responded ⟨500, .message "Erreur lors de l\x27ajout du produit"⟩,
      log := [.insertProduct] }
  | .ok st1 =>
    { state := st1, outcome := .responded ⟨201, .message "Produit ajouté avec succès"⟩,
      log := [.insertProduct] }

/-- The handler of `PUT /products/:id`. -/
def routerPutProduct (lib : Lib) (fault : Bool) (st : State) (id : String)
    (b : ProductFields) : Result :=
  match Store.updateProduct lib fault st id b with
  | .error _ =>
    { state := st,
      outcome := .responded ⟨500, .message "Erreur lors de la mise à jour du produit"⟩,
      log := [.updateProduct] }
  | .ok st1 =>
    { state := st1, outcome := .responded ⟨200, .message "Produit mis à jour avec succès"⟩,
      log := [.updateProduct] }

/-! ## All endpoints -/

/-- A request to one of the endpoints of the two source files. -/
inductive Request where
  | getProducts
  | register (b : RegisterBody)
  | login (b : LoginBody)
  | postProducts (authorization : Option String) (payload : ProductPayload)
  | routerGet
  | routerPost (b : ProductFields)
  | routerPut (id : String) (b : ProductFields)
  deriving DecidableEq, Repr

/-- What a request meets besides the state: the libraries, the clock
(`Date.now()`), the salt bcrypt draws, and whether its store statement fails. -/
structure Env where
  lib : Lib
  now : Nat
  salt : Nat
  fault : Bool

/-- The server: one request, from one state to the next. -/
def handle (env : Env) (st : State) : Request → Result
  | .getProducts => getProducts env.fault st
  | .register b => register env.lib env.salt env.fault st b
  | .login b => login env.lib env.now env.fault st b
  | .postProducts a p => postProducts env.lib env.now env.fault st a p
  | .routerGet => routerGetProducts env.fault st
  | .routerPost b => routerPostProduct env.fault st b
  | .routerPut id b => routerPutProduct env.lib env.fault st id b


/-! ## Notions of the specification -/

/-- The claims of the token of a request, when one can be extracted from the
Authorization header and verifies at `now`. -/
def tokenClaims (lib : Lib) (now : Nat) (authorization : Option String) : Option Claims :=
  match bearerToken authorization with
  | none => none
  | some t =>
    if t = "" then none
    else
      match jwtVerify lib now t with
      | .ok c => some c
      | .error _ => none

/-- A field is missing when it is absent or empty. -/
def JsVal.missing (v : JsVal) : Prop :=
  v = .undefined ∨ v = .str ""

instance (v : JsVal) : Decidable v.missing := by
  unfold JsVal.missing; infer_instance

/-- The name a product request gives. -/
def ProductPayload.nameVal : ProductPayload → JsVal
  | .json n _ _ => n
  | .multipart n _ _ _ => n.toJs

/-- The description a product request gives. -/
def ProductPayload.descriptionVal : ProductPayload → JsVal
  | .json _ d _ => d
  | .multipart _ d _ _ => d.toJs

/-- The price a product request gives. -/
def ProductPayload.priceVal : ProductPayload → JsVal
  | .json _ _ p => p
  | .multipart _ _ p _ => p.toJs

/-- Whether multer refuses the request: a multipart form with a file under a
field name other than `image`, or with more than one file. -/
def ProductPayload.refused : ProductPayload → Bool
  | .json _ _ _ => false
  | .multipart _ _ _ files =>
    match multerSingle files with
    | .accepted _ => false
    | .refused _ => true

/-- The image file of a product request: the file of a form multer accepts. -/
def ProductPayload.imageFile : ProductPayload → Option Upload
  | .json _ _ _ => none
  | .multipart _ _ _ files =>
    match multerSingle files with
    | .accepted f => f
    | .refused _ => none

/-- The file multer had written when it refused the form, and removes. -/
def ProductPayload.discarded : ProductPayload → Option Upload
  | .json _ _ _ => none
  | .multipart _ _ _ files =>
    match multerSingle files with
    | .accepted _ => none
    | .refused w => w

/-- At least one of name, description, price or the image file is absent (or
empty). -/
def ProductPayload.incomplete (p : ProductPayload) : Prop :=
  p.nameVal.missing ∨ p.descriptionVal.missing ∨ p.priceVal.missing ∨ p.imageFile = none

instance (p : ProductPayload) : Decidable p.incomplete := by
  unfold ProductPayload.incomplete; infer_instance

/-- The token of a response, when it carries one. -/
def Outcome.token? : Outcome → Option String
  | .responded ⟨_, .token t⟩ => some t
  | _ => none

/-- The error kinds of the specification. -/
inductive ErrorKind where
  | validation
  | authentication
  | authorization
  | store
  deriving DecidableEq, Repr

/-- The status the specification assigns to an error kind. -/
def specStatus : ErrorKind → Nat
  | .validation => 400
  | .authentication => 401
  | .authorization => 403
  | .store => 500

/-- The error kind of a failing request, in the words of the specification:
validation when a required field is missing, authentication for bad login
credentials and for a missing or invalid token, authorization when the role
is not `admin`, store when the database query returns an error. The first
check that fails decides; `none` when no check fails, and also when multer
refuses the form before the handler runs, which is none of the four kinds. -/
def failureKind (env : Env) (st : State) : Request → Option ErrorKind
  | .getProducts => if env.fault then some .store else none
  | .register b =>
    if !b.email.truthy || !b.password.truthy then some .validation
    else
      match bcryptHash env.lib env.salt b.password with
      | .error _ => none
      | .ok h =>
        match Store.insertUser env.fault st b.email h (b.role.or (.str "client")) with
        | .error _ => some .store
        | .ok _ => none
  | .login b =>
    if !b.email.truthy || !b.password.truthy then some .validation
    else
      match Store.selectUsersByEmail env.fault st b.email with
      | .error _ => some .store
      | .ok [] => some .authentication
      | .ok (u :: _) =>
        match bcryptCompare env.lib b.password u.password with
        | .ok false => some .authentication
        | _ => none
  | .postProducts a p =>
    match tokenClaims env.lib env.now a with
    | none => some .authentication
    | some c =>
      if c.role ≠ .str "admin" then some .authorization
      else if p.refused then none
      else if p.incomplete then some .validation
      else if env.fault then some .store
      else none
  | .routerGet => if env.fault then some .store else none
  | .routerPost _ => if env.fault then some .store else none
  | .routerPut _ _ => if env.fault then some .store else none

/-- The status the handlers give to an error kind: the one of the
specification, except that every failure of `POST /api/login` is answered 400. -/
def codeStatus : Request → ErrorKind → Nat
  | .login _, _ => 400
  | _, k => specStatus k

/-- The file a request leaves in `public/images/`: the image of a
`POST /api/products` whose token verifies with the role `admin` and whose
form multer accepts. -/
def storedUpload (env : Env) : Request → Option Upload
  | .postProducts a p =>
    match tokenClaims env.lib env.now a with
    | some c => if c.role = .str "admin" then p.imageFile else none
    | none => none
  | _ => none

/-- The file a request writes to `public/images/` and removes again: the
image of a `POST /api/products` whose token verifies with the role `admin`
and whose form multer refuses after the image. -/
def discardedUpload (env : Env) : Request → Option Upload
  | .postProducts a p =>
    match tokenClaims env.lib env.now a with
    | some c => if c.role = .str "admin" then p.discarded else none
    | none => none
  | _ => none

/-! ## A concrete library instance, for evaluating the handlers -/

/-- A number in unary, closed by `0`. -/
def encNat (n : Nat) (rest : List Char) : List Char :=
  List.replicate n '1' ++ '0' :: rest

/-- Reads a number written by `encNat`. -/
def decNat : List Char → Option (Nat × List Char)
  | [] => none
  | c :: cs =>
    if c = '0' then some (0, cs)
    else if c = '1' then (decNat cs).map (fun x => (x.1 + 1, x.2))
    else none

/-- A time in seconds, as hours and remaining seconds. -/
def encTime (n : Nat) (rest : List Char) : List Char :=
  encNat (n / 3600) (encNat (n % 3600) rest)

/-- Reads a time written by `encTime`. -/
def decTime (l : List Char) : Option (Nat × List Char) :=
  match decNat l with
  | none => none
  | some (q, r) =>
    match decNat r with
    | none => none
    | some (m, r2) => some (q * 3600 + m, r2)

/-- A string, after its length. -/
def encText (s : String) (rest : List Char) : List Char :=
  encNat s.data.length (s.data ++ rest)

/-- Reads a string written by `encText`. -/
def decText (l : List Char) : Option (String × List Char) :=
  match decNat l with
  | none => none
  | some (n, r) => some (String.mk (r.take n), r.drop n)

/-- A value, after a letter for its kind. -/
def encJs : JsVal → List Char → List Char
  | .undefined, r => 'u' :: r
  | .null, r => 'n' :: r
  | .bool true, r => 't' :: r
  | .bool false, r => 'f' :: r
  | .num (Int.ofNat n), r => 'p' :: encNat n r
  | .num (Int.negSucc n), r => 'm' :: encNat n r
  | .str s, r => 's' :: encText s r
  | .arr s, r => 'a' :: encText s r
  | .obj s, r => 'o' :: encText s r

/-- Reads a value written by `encJs`. -/
def decJs : List Char → Option (JsVal × List Char)
  | [] => none
  | c :: cs =>
    if c = 'u' then some (.undefined, cs)
    else if c = 'n' then some (.null, cs)
    else if c = 't' then some (.bool true, cs)
    else if c = 'f' then some (.bool false, cs)
    else if c = 'p' then (decNat cs).map (fun x => (.num (Int.ofNat x.1), x.2))
    else if c = 'm' then (decNat cs).map (fun x => (.num (Int.negSucc x.1), x.2))
    else if c = 's' then (decText cs).map (fun x => (.str x.1, x.2))
    else if c = 'a' then (decText cs).map (fun x => (.arr x.1, x.2))
    else if c = 'o' then (decText cs).map (fun x => (.obj x.1, x.2))
    else none

/-- A token of the toy instance: the five fields of the payload in a row. -/
def demoEncode (c : Claims) : String :=
  String.mk (encNat c.id (encJs c.email (encJs c.role (encTime c.iat (encTime c.exp [])))))

/-- Reads a token written by `demoEncode`; anything else is refused. -/
def demoDecode (t : String) : Option Claims :=
  match decNat t.data with
  | none => none
  | some (id, r1) =>
    match decJs r1 with
    | none => none
    | some (email, r2) =>
      match decJs r2 with
      | none => none
      | some (role, r3) =>
        match decTime r3 with
        | none => none
        | some (iat, r4) =>
          match decTime r4 with
          | some (exp, []) => some ⟨id, email, role, iat, exp⟩
          | _ => none

/-- A toy instance of the libraries: the hash is the password after `h:`, a
token is the payload written out, every extension is `.png`, and the store
compares an id parameter with the decimal writing of the id. -/
def demoLib : Lib where
  hash := fun _ s => "h:" ++ s
  compare := fun s h => h == "h:" ++ s
  jwtEncode := demoEncode
  jwtDecode := demoDecode
  extname := fun _ => ".png"
  sqlIdEq := fun p i => p == toString i

/-- A state with one admin, one client, one product and its image. -/
def demoState : State where
  users := [⟨1, .str "root@x", "h:secret", .str "admin"⟩, ⟨2, .str "bob@x", "h:pw", .str "client"⟩]
  products := [⟨1, .str "robe", .str "robe longue", .str "100", .null, .null, .str "1.png"⟩]
  files := [("1.png", "data")]

/-- The token the toy instance signs for the admin of `demoState` at time 0. -/
def demoAdminToken : String := "10s1111110root@xs111110admin00100"

/-- The token the toy instance signs for the client of `demoState` at time 0. -/
def demoClientToken : String := "110s111110bob@xs1111110client00100"

/-- The toy instance at millisecond 5, with a store that answers. -/
def demoEnv : Env where
  lib := demoLib
  now := 5
  salt := 3
  fault := false

/-! ## Lemmas on the middleware chain -/

theorem postProducts_of_no_claims (lib : Lib) (now : Nat) (fault : Bool) (st : State)
    (a : Option String) (p : ProductPayload) (h : tokenClaims lib now a = none) :
    (postProducts lib now fault st a p).outcome.status? = some 401 ∧
    (postProducts lib now fault st a p).log = [.verifyToken] ∧
    (postProducts lib now fault st a p).state = st := by
  unfold tokenClaims at h
  unfold postProducts runChain verifyToken
  simp only [Req.incoming]
  split at h
  · rename_i hb; simp [hb, Outcome.status?]
  · rename_i t hb
    by_cases ht : t = ""
    · simp [hb, ht, Outcome.status?]
    · simp only [ht, if_false] at h
      split at h
      · cases h
      · rename_i e he; simp [hb, ht, he, Outcome.status?]

theorem postProducts_of_not_admin (lib : Lib) (now : Nat) (fault : Bool) (st : State)
    (a : Option String) (p : ProductPayload) (c : Claims)
    (h : tokenClaims lib now a = some c) (hr : c.role ≠ .str "admin") :
    postProducts lib now fault st a p =
      { state := st, outcome := .responded ⟨403, .message msgAdminRequired⟩,
        log := [.verifyToken, .verifyAdmin] } := by
  unfold tokenClaims at h
  unfold postProducts runChain verifyToken
  simp only [Req.incoming]
  split at h
  · cases h
  · rename_i t hb
    by_cases ht : t = ""
    · simp [ht] at h
    · simp only [ht, if_false] at h
      split at h
      · rename_i c1 hc
        cases h
        simp [hb, ht, hc, runChain, verifyAdmin, hr]
      · cases h

/-- The chain after the two access checks. -/
theorem postProducts_of_admin (lib : Lib) (now : Nat) (fault : Bool) (st : State)
    (a : Option String) (p : ProductPayload) (c : Claims)
    (h : tokenClaims lib now a = some c) (hr : c.role = .str "admin") :
    postProducts lib now fault st a p =
      { state := (runChain [(.upload, uploadSingle lib now), (.productHandler, productHandler fault)]
          st { Req.incoming a p with user := some c }).state,
        outcome := (runChain [(.upload, uploadSingle lib now), (.productHandler, productHandler fault)]
          st { Req.incoming a p with user := some c }).outcome,
        log := .verifyToken :: .verifyAdmin ::
          (runChain [(.upload, uploadSingle lib now), (.productHandler, productHandler fault)]
            st { Req.incoming a p with user := some c }).log } := by
  unfold tokenClaims at h
  unfold postProducts
  rw [runChain]
  unfold verifyToken
  simp only [Req.incoming]
  split at h
  · cases h
  · rename_i t hb
    by_cases ht : t = ""
    · simp [ht] at h
    · simp only [ht, if_false] at h
      split at h
      · rename_i c1 hc
        cases h
        simp only [hb, ht, hc, if_false]
        rw [runChain]
        simp [verifyAdmin, hr]
      · cases h

/-! ## Lemmas on the upload and the product handler -/

theorem toDigitsCore_ne_nil (b f n : Nat) (ds : List Char) (h : ds ≠ []) :
    Nat.toDigitsCore b f n ds ≠ [] := by
  induction f generalizing n ds with
  | zero => simpa [Nat.toDigitsCore] using h
  | succ f ih =>
    simp only [Nat.toDigitsCore]
    split
    · simp
    · exact ih _ _ (by simp)

theorem natToString_ne_empty (n : Nat) : toString n ≠ "" := by
  intro h
  have h1 : (Nat.toDigits 10 n) = [] := by
    have := congrArg String.data h
    simpa [toString, Nat.repr, List.asString] using this
  unfold Nat.toDigits at h1
  simp only [Nat.toDigitsCore] at h1
  split at h1
  · simp at h1
  · exact toDigitsCore_ne_nil _ _ _ _ (by simp) h1

theorem uploadFilename_ne_empty (lib : Lib) (now : Nat) (o : String) :
    uploadFilename lib now o ≠ "" := by
  intro h
  unfold uploadFilename at h
  have h1 := congrArg String.data h
  simp only [String.data_append] at h1
  have h2 : (toString now).data = [] := by
    have : (toString now).data ++ (lib.extname o).data = [] := h1
    exact (List.append_eq_nil.mp this).1
  exact natToString_ne_empty now (String.ext h2)

theorem truthy_toJs (f : FormField) : f.toJs.truthy = true ↔ ¬ f.toJs.missing := by
  cases f <;> simp [FormField.toJs, JsVal.truthy, JsVal.missing]

theorem truthy_of_file (p : ProductPayload) (f : Upload) (hf : p.imageFile = some f) :
    (p.nameVal.truthy = true ↔ ¬ p.nameVal.missing) ∧
    (p.descriptionVal.truthy = true ↔ ¬ p.descriptionVal.missing) ∧
    (p.priceVal.truthy = true ↔ ¬ p.priceVal.missing) := by
  cases p with
  | json n d pr => simp [ProductPayload.imageFile] at hf
  | multipart n d pr files =>
    exact ⟨truthy_toJs n, truthy_toJs d, truthy_toJs pr⟩

theorem removeFile_writeFile (name content : String) (files : List (String × String)) :
    removeFile name (writeFile name content files) = removeFile name files := by
  simp [removeFile, writeFile, List.filter_append, List.filter_filter]

/-- When multer refuses the form, the handler is skipped and the framework
answers 500; a file multer had written is removed. -/
theorem chain_refused (lib : Lib) (now : Nat) (fault : Bool) (st : State)
    (a : Option String) (p : ProductPayload) (c : Claims) (hr : p.refused = true) :
    runChain [(.upload, uploadSingle lib now), (.productHandler, productHandler fault)]
        st { Req.incoming a p with user := some c } =
      { state :=
          { users := st.users, products := st.products,
            files :=
              match p.discarded with
              | none => st.files
              | some f => removeFile (uploadFilename lib now f.originalname) st.files },
        outcome := .framework ⟨500, .text "MulterError: Unexpected field"⟩,
        log := [.upload] } := by
  cases p with
  | json n d pr => simp [ProductPayload.refused] at hr
  | multipart n d pr files =>
    simp only [ProductPayload.refused] at hr
    cases hm : multerSingle files with
    | accepted o => simp [hm] at hr
    | refused w =>
      cases w with
      | none =>
        simp [runChain, uploadSingle, Req.incoming, hm, ProductPayload.discarded]
      | some f =>
        simp [runChain, uploadSingle, Req.incoming, hm, ProductPayload.discarded,
          removeFile_writeFile]

/-- Without an image file the chain after the access checks answers 400 and
leaves the state as it was. -/
theorem chain_no_file (lib : Lib) (now : Nat) (fault : Bool) (st : State)
    (a : Option String) (p : ProductPayload) (c : Claims) (hr : p.refused = false)
    (hf : p.imageFile = none) :
    runChain [(.upload, uploadSingle lib now), (.productHandler, productHandler fault)]
        st { Req.incoming a p with user := some c } =
      { state := st, outcome := .responded ⟨400, .message msgFieldsRequired⟩,
        log := [.upload, .productHandler] } := by
  cases p with
  | json n d pr =>
    simp [runChain, uploadSingle, productHandler, Req.incoming, JsVal.truthy]
  | multipart n d pr files =>
    simp only [ProductPayload.refused, ProductPayload.imageFile] at hr hf
    cases hm : multerSingle files with
    | refused w => simp [hm] at hr
    | accepted o =>
      simp only [hm] at hf
      subst hf
      simp [runChain, uploadSingle, productHandler, Req.incoming, JsVal.truthy, hm]

/-- With an image file the file is written first; then the handler validates
the text fields and inserts. -/
theorem chain_file (lib : Lib) (now : Nat) (fault : Bool) (st : State)
    (a : Option String) (p : ProductPayload) (f : Upload) (c : Claims)
    (hf : p.imageFile = some f) :
    runChain [(.upload, uploadSingle lib now), (.productHandler, productHandler fault)]
        st { Req.incoming a p with user := some c } =
      if p.nameVal.truthy && p.descriptionVal.truthy && p.priceVal.truthy then
        if fault then
          { state :=
              { users := st.users, products := st.products,
                files := writeFile (uploadFilename lib now f.originalname) f.content st.files },
            outcome := .responded ⟨500, .message msgProductFailed⟩,
            log := [.upload, .productHandler, .insertProduct] }
        else
          { state :=
              { users := st.users,
                products := st.products ++
                  [{ id := freshId (st.products.map ProductRow.id), name := p.nameVal,
                     description := p.descriptionVal, price := p.priceVal, fabric := .null,
                     color := .null,
                     image := .str (uploadFilename lib now f.originalname) }],
                files := writeFile (uploadFilename lib now f.originalname) f.content st.files },
            outcome := .responded ⟨201, .message msgProductDone⟩,
            log := [.upload, .productHandler, .insertProduct] }
      else
        { state :=
            { users := st.users, products := st.products,
              files := writeFile (uploadFilename lib now f.originalname) f.content st.files },
          outcome := .responded ⟨400, .message msgFieldsRequired⟩,
          log := [.upload, .productHandler] } := by
  have hne : (JsVal.str (uploadFilename lib now f.originalname)).truthy = true := by
    simp [JsVal.truthy, uploadFilename_ne_empty]
  cases p with
  | json n d pr => simp [ProductPayload.imageFile] at hf
  | multipart n d pr files =>
    simp only [ProductPayload.imageFile] at hf
    cases hm : multerSingle files with
    | refused w => simp [hm] at hf
    | accepted o =>
      simp only [hm] at hf
      subst hf
      simp only [ProductPayload.nameVal, ProductPayload.descriptionVal, ProductPayload.priceVal]
      cases hn : n.toJs.truthy <;> cases hd : d.toJs.truthy <;> cases hp : pr.toJs.truthy <;>
        cases fault <;>
        simp [runChain, uploadSingle, productHandler, Req.incoming, hn, hd, hp, hne, hm,
          Store.insertProduct]

/-! ## Lemmas on registration, login and tokens -/

/-- The row `register` stores for a request. -/
theorem register_fresh (lib : Lib) (salt : Nat) (st : State) (e p : String) (role : JsVal)
    (he : e ≠ "") (hp : p ≠ "") (hfresh : ∀ u ∈ st.users, u.email ≠ .str e) :
    register lib salt false st ⟨.str e, .str p, role⟩ =
      { state :=
          { users := st.users ++
              [{ id := freshId (st.users.map UserRow.id), email := .str e,
                 password := lib.hash salt p, role := role.or (.str "client") }],
            products := st.products, files := st.files },
        outcome := .responded ⟨201, .message msgRegisterDone⟩,
        log := [.bcryptHash, .insertUser] } := by
  have hany : (st.users.any fun u => u.email == JsVal.str e) = false := by
    rw [Bool.eq_false_iff]
    intro h
    rw [List.any_eq_true] at h
    obtain ⟨u, hu, hue⟩ := h
    exact hfresh u hu (by simpa using hue)
  simp [register, JsVal.truthy, he, hp, bcryptHash, Store.insertUser, hany]

/-- Login finds the row of a fresh registration and signs a token for it. -/
theorem login_after_register (lib : Lib) (now : Nat) (st : State) (e p : String) (row : UserRow)
    (he : e ≠ "") (hp : p ≠ "") (hfresh : ∀ u ∈ st.users, u.email ≠ .str e)
    (hrow : row.email = .str e) (hcmp : lib.compare p row.password = true) :
    (login lib now false
        { users := st.users ++ [row], products := st.products, files := st.files }
        ⟨.str e, .str p⟩).outcome =
      .responded ⟨200, .token (generateToken lib now row)⟩ := by
  have hfil : (st.users ++ [row]).filter (fun u => u.email == JsVal.str e) = [row] := by
    rw [List.filter_append]
    have h1 : st.users.filter (fun u => u.email == JsVal.str e) = [] := by
      rw [List.filter_eq_nil_iff]
      intro u hu
      simpa using hfresh u hu
    rw [h1]
    simp [List.filter, hrow]
  simp [login, JsVal.truthy, he, hp, Store.selectUsersByEmail, hfil, bcryptCompare, hcmp]

/-- A token of `generateToken` verifies, to the row it was made from, until
one hour has passed. -/
theorem jwtVerify_generateToken (lib : Lib) (hjwt : ∀ c, lib.jwtDecode (lib.jwtEncode c) = some c)
    (now₀ now₁ : Nat) (row : UserRow) (hlt : now₁ / 1000 < now₀ / 1000 + 3600) :
    jwtVerify lib now₁ (generateToken lib now₀ row) =
      .ok { id := row.id, email := row.email, role := row.role,
            iat := now₀ / 1000, exp := now₀ / 1000 + 3600 } := by
  simp [jwtVerify, generateToken, hjwt, hlt]

theorem tokenClaims_of_presented (lib : Lib) (now : Nat) (a : Option String) (tok : String)
    (c : Claims) (ha : bearerToken a = some tok) (hne : tok ≠ "")
    (hv : jwtVerify lib now tok = .ok c) : tokenClaims lib now a = some c := by
  simp [tokenClaims, ha, hne, hv]

theorem verifyToken_of_presented (lib : Lib) (now : Nat) (st : State) (req : Req) (tok : String)
    (c : Claims) (ha : bearerToken req.authorization = some tok) (hne : tok ≠ "")
    (hv : jwtVerify lib now tok = .ok c) :
    verifyToken lib now st req = .next st { req with user := some c } := by
  simp [verifyToken, ha, hne, hv]

theorem splitOnChar_of_not_mem (sep : Char) (l : List Char) (h : sep ∉ l) :
    splitOnChar sep l = [l] := by
  induction l with
  | nil => rfl
  | cons c cs ih =>
    have hc : c ≠ sep := fun hh => h (by simp [hh])
    have hcs : sep ∉ cs := fun hh => h (by simp [hh])
    simp [splitOnChar, hc, ih hcs]

/-- The header `Bearer <token>` yields the token, for a token without a space. -/
theorem bearerToken_bearer (tok : String) (h : ' ' ∉ tok.data) :
    bearerToken (some ("Bearer " ++ tok)) = some tok := by
  have hd : ("Bearer " ++ tok).data = 'B' :: 'e' :: 'a' :: 'r' :: 'e' :: 'r' :: ' ' :: tok.data := by
    simp [String.data_append]
  simp [bearerToken, hd, splitOnChar, splitOnChar_of_not_mem ' ' tok.data h]

/-! ## The toy instance is lawful -/

theorem decNat_encNat (n : Nat) (rest : List Char) : decNat (encNat n rest) = some (n, rest) := by
  induction n with
  | zero => simp [encNat, decNat]
  | succ n ih =>
    have h : encNat (n + 1) rest = '1' :: encNat n rest := by
      simp [encNat, List.replicate_succ]
    rw [h]
    simp [decNat, ih]

theorem decTime_encTime (n : Nat) (rest : List Char) :
    decTime (encTime n rest) = some (n, rest) := by
  simp [decTime, encTime, decNat_encNat, Nat.div_add_mod']

theorem decText_encText (s : String) (rest : List Char) :
    decText (encText s rest) = some (s, rest) := by
  simp [decText, encText, decNat_encNat]

theorem decJs_encJs (v : JsVal) (rest : List Char) : decJs (encJs v rest) = some (v, rest) := by
  cases v with
  | undefined => simp [encJs, decJs]
  | null => simp [encJs, decJs]
  | bool b => cases b <;> simp [encJs, decJs]
  | num n => cases n <;> simp [encJs, decJs, decNat_encNat]
  | str s => simp [encJs, decJs, decText_encText]
  | arr s => simp [encJs, decJs, decText_encText]
  | obj s => simp [encJs, decJs, decText_encText]

theorem demoDecode_demoEncode (c : Claims) : demoDecode (demoEncode c) = some c := by
  simp [demoDecode, demoEncode, decNat_encNat, decJs_encJs, decTime_encTime]

theorem demoLib_compare_hash (salt : Nat) (p : String) :
    demoLib.compare p (demoLib.hash salt p) = true := by
  simp [demoLib]

theorem demoLib_decode_encode (c : Claims) : demoLib.jwtDecode (demoLib.jwtEncode c) = some c :=
  demoDecode_demoEncode c

theorem demoAdminToken_eq :
    generateToken demoLib 0 ⟨1, .str "root@x", "h:secret", .str "admin"⟩ = demoAdminToken := by
  decide

theorem demoClientToken_eq :
    generateToken demoLib 0 ⟨2, .str "bob@x", "h:pw", .str "client"⟩ = demoClientToken := by
  decide

theorem demoAdminToken_claims :
    tokenClaims demoLib 5 (some "Bearer 10s1111110root@xs111110admin00100") =
      some ⟨1, .str "root@x", .str "admin", 0, 3600⟩ := by
  decide

theorem incomplete_of_file (p : ProductPayload) (f : Upload) (hf : p.imageFile = some f) :
    p.incomplete ↔
      ¬ ((p.nameVal.truthy && p.descriptionVal.truthy && p.priceVal.truthy) = true) := by
  obtain ⟨h1, h2, h3⟩ := truthy_of_file p f hf
  simp only [ProductPayload.incomplete, Bool.and_eq_true, h1, h2, h3, hf]
  simp only [reduceCtorEq, or_false]
  tauto

theorem refused_or_accepted (p : ProductPayload) :
    p.refused = true ∧ p.imageFile = none ∨ p.refused = false ∧ p.discarded = none := by
  cases p with
  | json n d pr => simp [ProductPayload.refused, ProductPayload.discarded]
  | multipart n d pr files =>
    cases hm : multerSingle files <;>
      simp [ProductPayload.refused, ProductPayload.discarded, ProductPayload.imageFile, hm]

/-- What `POST /api/products` does once both access checks have passed. -/
theorem postProducts_admitted (lib : Lib) (now : Nat) (fault : Bool) (st : State)
    (a : Option String) (p : ProductPayload) (c : Claims)
    (h : tokenClaims lib now a = some c) (hr : c.role = .str "admin") :
    (p.refused = true ∧
      postProducts lib now fault st a p =
        { state :=
            { users := st.users, products := st.products,
              files :=
                match p.discarded with
                | none => st.files
                | some f => removeFile (uploadFilename lib now f.originalname) st.files },
          outcome := .framework ⟨500, .text "MulterError: Unexpected field"⟩,
          log := [.verifyToken, .verifyAdmin, .upload] }) ∨
    (p.refused = false ∧ p.imageFile = none ∧
      postProducts lib now fault st a p =
        { state := st, outcome := .responded ⟨400, .message msgFieldsRequired⟩,
          log := [.verifyToken, .verifyAdmin, .upload, .productHandler] }) ∨
    (∃ f, p.refused = false ∧ p.imageFile = some f ∧ p.incomplete ∧
      postProducts lib now fault st a p =
        { state :=
            { users := st.users, products := st.products,
              files := writeFile (uploadFilename lib now f.originalname) f.content st.files },
          outcome := .responded ⟨400, .message msgFieldsRequired⟩,
          log := [.verifyToken, .verifyAdmin, .upload, .productHandler] }) ∨
    (∃ f, p.refused = false ∧ p.imageFile = some f ∧ ¬ p.incomplete ∧ fault = true ∧
      postProducts lib now fault st a p =
        { state :=
            { users := st.users, products := st.products,
              files := writeFile (uploadFilename lib now f.originalname) f.content st.files },
          outcome := .responded ⟨500, .message msgProductFailed⟩,
          log := [.verifyToken, .verifyAdmin, .upload, .productHandler, .insertProduct] }) ∨
    (∃ f, p.refused = false ∧ p.imageFile = some f ∧ ¬ p.incomplete ∧ fault = false ∧
      postProducts lib now fault st a p =
        { state :=
            { users := st.users,
              products := st.products ++
                [{ id := freshId (st.products.map ProductRow.id), name := p.nameVal,
                   description := p.descriptionVal, price := p.priceVal, fabric := .null,
                   color := .null, image := .str (uploadFilename lib now f.originalname) }],
              files := writeFile (uploadFilename lib now f.originalname) f.content st.files },
          outcome := .responded ⟨201, .message msgProductDone⟩,
          log := [.verifyToken, .verifyAdmin, .upload, .productHandler, .insertProduct] }) := by
  rw [postProducts_of_admin lib now fault st a p c h hr]
  cases hrf : p.refused with
  | true =>
    left
    rw [chain_refused lib now fault st a p c hrf]
    simp
  | false =>
    right
    cases hf : p.imageFile with
    | none =>
      left
      rw [chain_no_file lib now fault st a p c hrf hf]
      simp
    | some f =>
      right
      rw [chain_file lib now fault st a p f c hf]
      have hinc := incomplete_of_file p f hf
      by_cases ht : (p.nameVal.truthy && p.descriptionVal.truthy && p.priceVal.truthy) = true
      · have hni : ¬ p.incomplete := by
          rw [hinc]; exact fun hh => hh ht
        cases fault
        · right; right
          exact ⟨f, rfl, rfl, hni, rfl, by simp [ht]⟩
        · right; left
          exact ⟨f, rfl, rfl, hni, rfl, by simp [ht]⟩
      · left
        exact ⟨f, rfl, rfl, hinc.mpr ht, by simp [ht]⟩

/-- Claim C2. On `POST /api/products`: when no token can be extracted from the
Authorization header or the token fails verification the answer is 401 and only
`verifyToken` has run; when the token verifies and its role is not `admin` the
answer is 403 and only `verifyToken` and `verifyAdmin` have run; in both cases
the state (tables and image files) is what it was. The role check runs only
after a successful verification, and the product handler runs exactly when the
token verifies, its role is `admin` and multer accepts the form. -/
theorem postProducts_access_control (lib : Lib) (now : Nat) (fault : Bool) (st : State)
    (a : Option String) (p : ProductPayload) :
    (tokenClaims lib now a = none →
      (postProducts lib now fault st a p).outcome.status? = some 401 ∧
      (postProducts lib now fault st a p).log = [.verifyToken] ∧
      (postProducts lib now fault st a p).state = st) ∧
    (∀ c, tokenClaims lib now a = some c → c.role ≠ .str "admin" →
      (postProducts lib now fault st a p).outcome.status? = some 403 ∧
      (postProducts lib now fault st a p).log = [.verifyToken, .verifyAdmin] ∧
      (postProducts lib now fault st a p).state = st) ∧
    (Step.verifyAdmin ∈ (postProducts lib now fault st a p).log →
      ∃ c, tokenClaims lib now a = some c) ∧
    (Step.productHandler ∈ (postProducts lib now fault st a p).log ↔
      (∃ c, tokenClaims lib now a = some c ∧ c.role = .str "admin") ∧ p.refused = false) := by
  refine ⟨postProducts_of_no_claims lib now fault st a p, ?_, ?_, ?_⟩
  · intro c h hr
    rw [postProducts_of_not_admin lib now fault st a p c h hr]
    simp [Outcome.status?]
  · intro hmem
    cases h : tokenClaims lib now a with
    | none =>
      rw [(postProducts_of_no_claims lib now fault st a p h).2.1] at hmem
      simp at hmem
    | some c => exact ⟨c, rfl⟩
  · cases h : tokenClaims lib now a with
    | none =>
      rw [(postProducts_of_no_claims lib now fault st a p h).2.1]
      simp
    | some c =>
      by_cases hr : c.role = .str "admin"
      · rcases postProducts_admitted lib now fault st a p c h hr with
          ⟨hrf, e⟩ | ⟨hrf, _, e⟩ | ⟨f, hrf, _, _, e⟩ | ⟨f, hrf, _, _, _, e⟩ |
          ⟨f, hrf, _, _, _, e⟩ <;>
          rw [e] <;> simp [hr, hrf]
      · rw [postProducts_of_not_admin lib now fault st a p c h hr]
        simp [hr]

/-- A request on which the claim C8 as stated fails. An admin posts name,
description and price with the file under the field name `photo`: multer
refuses the form, the product handler does not run and the framework answers
500, with no store error; the claim has the handler answer 400 when no image
was uploaded, and 201 or a store error's 500 otherwise. -/
theorem unexpected_field_skips_handler :
    (postProducts demoLib 5 false demoState (some "Bearer 10s1111110root@xs111110admin00100")
      (.multipart (.text "robe") (.text "longue") (.text "90")
        [⟨"photo", "r.jpg", "img"⟩])).outcome =
      .framework ⟨500, .text "MulterError: Unexpected field"⟩ ∧
    (postProducts demoLib 5 false demoState (some "Bearer 10s1111110root@xs111110admin00100")
      (.multipart (.text "robe") (.text "longue") (.text "90")
        [⟨"photo", "r.jpg", "img"⟩])).log = [.verifyToken, .verifyAdmin, .upload] ∧
    (postProducts demoLib 5 false demoState (some "Bearer 10s1111110root@xs111110admin00100")
      (.multipart (.text "robe") (.text "longue") (.text "90")
        [⟨"photo", "r.jpg", "img"⟩])).state = demoState ∧
    (ProductPayload.multipart (.text "robe") (.text "longue") (.text "90")
      [⟨"photo", "r.jpg", "img"⟩]).incomplete := by
  decide

/-- Claim C8, amended. After token verification and the admin check, and when
multer accepts the form (a JSON body, or a multipart form with no file or with
one file, under the field name `image`), `POST /api/products` answers 400
without an insert exactly when name, description, price or the image file is
absent or empty. Otherwise there is an image file, one insert is issued, and:
when the store accepts it the answer is 201 and the table has gained one row
with the name, description and price of the request and the generated upload
filename as image; when the store fails the answer is 500 and the table is
what it was. When multer refuses the form (a file under another field name,
or a second file), the handler does not run, no insert is issued, the table
is what it was and the framework answers 500. -/
theorem productHandler_contract (lib : Lib) (now : Nat) (fault : Bool) (st : State)
    (a : Option String) (p : ProductPayload) (c : Claims)
    (h : tokenClaims lib now a = some c) (hr : c.role = .str "admin") :
    (p.refused = true →
      (postProducts lib now fault st a p).outcome =
        .framework ⟨500, .text "MulterError: Unexpected field"⟩ ∧
      Step.productHandler ∉ (postProducts lib now fault st a p).log ∧
      Step.insertProduct ∉ (postProducts lib now fault st a p).log ∧
      (postProducts lib now fault st a p).state.products = st.products) ∧
    (p.refused = false →
      (((postProducts lib now fault st a p).outcome.status? = some 400 ∧
          Step.insertProduct ∉ (postProducts lib now fault st a p).log ∧
          (postProducts lib now fault st a p).state.products = st.products) ↔ p.incomplete) ∧
      (¬ p.incomplete → ∃ f, p.imageFile = some f ∧
        (postProducts lib now fault st a p).log.count .insertProduct = 1 ∧
        (fault = false →
          (postProducts lib now fault st a p).outcome =
            .responded ⟨201, .message "Produit ajouté avec succès."⟩ ∧
          (postProducts lib now fault st a p).state.products = st.products ++
            [{ id := freshId (st.products.map ProductRow.id), name := p.nameVal,
               description := p.descriptionVal, price := p.priceVal, fabric := .null,
               color := .null,
               image := .str (toString now ++ lib.extname f.originalname) }]) ∧
        (fault = true →
          (postProducts lib now fault st a p).outcome =
            .responded ⟨500, .message "Erreur lors de l\x27ajout du produit."⟩ ∧
          (postProducts lib now fault st a p).state.products = st.products))) := by
  have hinc_none : p.imageFile = none → p.incomplete := fun hf => by
    simp [ProductPayload.incomplete, hf]
  rcases postProducts_admitted lib now fault st a p c h hr with
    ⟨hrf, e⟩ | ⟨hrf, hf, e⟩ | ⟨f, hrf, hf, hi, e⟩ | ⟨f, hrf, hf, hi, hfa, e⟩ |
    ⟨f, hrf, hf, hi, hfa, e⟩
  · rw [e]
    exact ⟨fun _ => by simp, fun h0 => by simp [hrf] at h0⟩
  · rw [e]
    refine ⟨fun h1 => by simp [hrf] at h1, fun _ => ?_⟩
    exact ⟨by simp [Outcome.status?, hinc_none hf], fun hn => absurd (hinc_none hf) hn⟩
  · rw [e]
    refine ⟨fun h1 => by simp [hrf] at h1, fun _ => ?_⟩
    exact ⟨by simp [Outcome.status?, hi], fun hn => absurd hi hn⟩
  · rw [e]
    refine ⟨fun h1 => by simp [hrf] at h1, fun _ => ?_⟩
    refine ⟨by simp [Outcome.status?, hi], fun _ => ⟨f, hf, by simp [List.count_cons], ?_, ?_⟩⟩
    · intro h0; simp [hfa] at h0
    · intro _; simp [msgProductFailed]
  · rw [e]
    refine ⟨fun h1 => by simp [hrf] at h1, fun _ => ?_⟩
    refine ⟨by simp [Outcome.status?, hi], fun _ => ⟨f, hf, by simp [List.count_cons], ?_, ?_⟩⟩
    · intro _; simp [msgProductDone, uploadFilename]
    · intro h1; simp [hfa] at h1

/-! ## Login does not tell an unknown email from a wrong password -/

/-- As long as `bcrypt.compare` resolves, which it does for every password that
is a string: the response when no user row matches the email and the response
when a row matches but the password does not match its stored hash are the
same, status 400 with the message `Email ou mot de passe incorrect.`. -/
theorem login_unknown_same_as_wrong_password (lib : Lib) (now₁ now₂ : Nat)
    (fault₁ fault₂ : Bool) (st₁ st₂ : State) (b₁ b₂ : LoginBody) (u : UserRow)
    (rest : List UserRow)
    (he₁ : b₁.email.truthy = true) (hp₁ : b₁.password.truthy = true)
    (he₂ : b₂.email.truthy = true) (hp₂ : b₂.password.truthy = true)
    (hnone : Store.selectUsersByEmail fault₁ st₁ b₁.email = .ok [])
    (hrow : Store.selectUsersByEmail fault₂ st₂ b₂.email = .ok (u :: rest))
    (hbad : bcryptCompare lib b₂.password u.password = .ok false) :
    (login lib now₁ fault₁ st₁ b₁).outcome = (login lib now₂ fault₂ st₂ b₂).outcome ∧
    (login lib now₁ fault₁ st₁ b₁).outcome =
      .responded ⟨400, .message "Email ou mot de passe incorrect."⟩ := by
  simp [login, he₁, hp₁, he₂, hp₂, hnone, hrow, hbad, msgLoginIncorrect]

/-- An unknown email and a wrong string password for `bob@x`, on `demoState`. -/
theorem login_unknown_same_as_wrong_password_witness :
    (login demoLib 0 false demoState ⟨.str "eve@x", .str "pw"⟩).outcome =
      (login demoLib 7 false demoState ⟨.str "bob@x", .str "wrong"⟩).outcome ∧
    (login demoLib 0 false demoState ⟨.str "eve@x", .str "pw"⟩).outcome =
      .responded ⟨400, .message "Email ou mot de passe incorrect."⟩ :=
  login_unknown_same_as_wrong_password demoLib 0 7 false false demoState demoState
    ⟨.str "eve@x", .str "pw"⟩ ⟨.str "bob@x", .str "wrong"⟩
    ⟨2, .str "bob@x", "h:pw", .str "client"⟩ [] (by decide) (by decide) (by decide) (by decide)
    (by decide) (by decide) (by decide)

/-- Claim C1, on the code. The password `123` is not empty and passes the
guard of the login handler. With the unknown email `eve@x` the answer is 400
`Email ou mot de passe incorrect.`. With the known email `bob@x`, whose stored
hash the password does not match, `bcrypt.compare` rejects inside the query
callback, which does not catch it: no response is sent. The two cases are told
apart, which the claim excludes. -/
theorem login_number_password_tells_known_email :
    (JsVal.str "eve@x").truthy = true ∧ (JsVal.str "bob@x").truthy = true ∧
    (JsVal.num 123).truthy = true ∧
    Store.selectUsersByEmail false demoState (.str "eve@x") = .ok [] ∧
    Store.selectUsersByEmail false demoState (.str "bob@x") =
      .ok [⟨2, .str "bob@x", "h:pw", .str "client"⟩] ∧
    (login demoLib 0 false demoState ⟨.str "eve@x", .num 123⟩).outcome =
      .responded ⟨400, .message "Email ou mot de passe incorrect."⟩ ∧
    (login demoLib 0 false demoState ⟨.str "bob@x", .num 123⟩).outcome =
      .escaped "Illegal arguments: number, string" ∧
    (login demoLib 0 false demoState ⟨.str "eve@x", .num 123⟩).outcome ≠
      (login demoLib 0 false demoState ⟨.str "bob@x", .num 123⟩).outcome := by
  decide

/-! ## Register, then login -/

/-- Claim C3. With a hash/compare pair such that `compare p (hash p)` holds and a
sign/verify pair such that decoding a signed payload gives it back: for an
email not yet in the users table and a non-empty password, on a store that
answers, `register` answers 201 and stores one row, `login` with the same
email and password answers 200 with a token, and when a request presents that
token (not the empty string) in its Authorization header within the hour,
`verifyToken` calls `next()` with `req.user` set to the id, email and role of
the stored row. -/
theorem register_then_login (lib : Lib)
    (hcmp : ∀ salt p, lib.compare p (lib.hash salt p) = true)
    (hjwt : ∀ c, lib.jwtDecode (lib.jwtEncode c) = some c)
    (salt now₀ now₁ : Nat) (st st₁ : State) (e p : String) (role : JsVal) (req : Req)
    (he : e ≠ "") (hp : p ≠ "") (hfresh : ∀ u ∈ st.users, u.email ≠ .str e)
    (hlt : now₁ / 1000 < now₀ / 1000 + 3600)
    (hhdr : bearerToken req.authorization =
      (login lib now₀ false (register lib salt false st ⟨.str e, .str p, role⟩).state
        ⟨.str e, .str p⟩).outcome.token?)
    (hne : bearerToken req.authorization ≠ some "") :
    (register lib salt false st ⟨.str e, .str p, role⟩).outcome.status? = some 201 ∧
    ∃ row tok c,
      (register lib salt false st ⟨.str e, .str p, role⟩).state.users = st.users ++ [row] ∧
      row.email = .str e ∧
      (login lib now₀ false (register lib salt false st ⟨.str e, .str p, role⟩).state
        ⟨.str e, .str p⟩).outcome = .responded ⟨200, .token tok⟩ ∧
      verifyToken lib now₁ st₁ req = .next st₁ { req with user := some c } ∧
      c.id = row.id ∧ c.email = row.email ∧ c.role = row.role := by
  rw [register_fresh lib salt st e p role he hp hfresh] at hhdr ⊢
  have hlogin := login_after_register lib now₀ st e p
    { id := freshId (st.users.map UserRow.id), email := .str e,
      password := lib.hash salt p, role := role.or (.str "client") }
    he hp hfresh rfl (hcmp salt p)
  rw [hlogin] at hhdr
  simp only [Outcome.token?] at hhdr
  refine ⟨rfl,
    UserRow.mk (freshId (st.users.map UserRow.id)) (.str e) (lib.hash salt p)
      (role.or (.str "client")), _,
    Claims.mk (freshId (st.users.map UserRow.id)) (.str e) (role.or (.str "client"))
      (now₀ / 1000) (now₀ / 1000 + 3600),
    rfl, rfl, hlogin, ?_, rfl, rfl, rfl⟩
  exact verifyToken_of_presented lib now₁ st₁ req _ _ hhdr (fun h0 => hne (by rw [hhdr, h0]))
    (jwtVerify_generateToken lib hjwt now₀ now₁ _ hlt)

/-- Registering `eve@x` on `demoState`, logging in at time 0 and presenting the
token at millisecond 5. -/
theorem register_then_login_witness :
    (register demoLib 3 false demoState ⟨.str "eve@x", .str "pw", .undefined⟩).outcome.status?
      = some 201 ∧
    ∃ row tok c,
      (register demoLib 3 false demoState ⟨.str "eve@x", .str "pw", .undefined⟩).state.users =
        demoState.users ++ [row] ∧
      row.email = .str "eve@x" ∧
      (login demoLib 0 false
        (register demoLib 3 false demoState ⟨.str "eve@x", .str "pw", .undefined⟩).state
        ⟨.str "eve@x", .str "pw"⟩).outcome = .responded ⟨200, .token tok⟩ ∧
      verifyToken demoLib 5 demoState
          (Req.incoming (some "Bearer 1110s111110eve@xs1111110client00100") (.json .null .null .null)) =
        .next demoState
          { Req.incoming (some "Bearer 1110s111110eve@xs1111110client00100")
              (.json .null .null .null) with user := some c } ∧
      c.id = row.id ∧ c.email = row.email ∧ c.role = row.role :=
  register_then_login demoLib demoLib_compare_hash demoLib_decode_encode 3 0 5 demoState demoState
    "eve@x" "pw" .undefined
    (Req.incoming (some "Bearer 1110s111110eve@xs1111110client00100") (.json .null .null .null))
    (by decide) (by decide) (by decide) (by decide) (by decide) (by decide)

/-! ## Anyone can register as admin -/

/-- Claim C10. Registration takes no credentials and stores the role it is
given: for a fresh email, a non-empty password and the role `admin`, on a
store that answers, `register` answers 201, `login` with the same credentials
answers 200 with a token, and a `POST /api/products` that presents this token
within the hour passes `verifyToken` and `verifyAdmin`; whenever multer
accepts its form, it reaches the product handler. -/
theorem register_admin_reaches_product_handler (lib : Lib)
    (hcmp : ∀ salt p, lib.compare p (lib.hash salt p) = true)
    (hjwt : ∀ c, lib.jwtDecode (lib.jwtEncode c) = some c)
    (salt now₀ now₁ : Nat) (fault : Bool) (st st₁ : State) (e p : String)
    (a : Option String) (payload : ProductPayload)
    (he : e ≠ "") (hp : p ≠ "") (hfresh : ∀ u ∈ st.users, u.email ≠ .str e)
    (hlt : now₁ / 1000 < now₀ / 1000 + 3600)
    (hhdr : bearerToken a =
      (login lib now₀ false (register lib salt false st ⟨.str e, .str p, .str "admin"⟩).state
        ⟨.str e, .str p⟩).outcome.token?)
    (hne : bearerToken a ≠ some "") :
    (register lib salt false st ⟨.str e, .str p, .str "admin"⟩).outcome.status? = some 201 ∧
    (login lib now₀ false (register lib salt false st ⟨.str e, .str p, .str "admin"⟩).state
        ⟨.str e, .str p⟩).outcome.status? = some 200 ∧
    [Step.verifyToken, Step.verifyAdmin, Step.upload] <+:
      (postProducts lib now₁ fault st₁ a payload).log ∧
    (payload.refused = false →
      [Step.verifyToken, Step.verifyAdmin, Step.upload, Step.productHandler] <+:
        (postProducts lib now₁ fault st₁ a payload).log) := by
  rw [register_fresh lib salt st e p (.str "admin") he hp hfresh] at hhdr ⊢
  have hlogin := login_after_register lib now₀ st e p
    { id := freshId (st.users.map UserRow.id), email := .str e,
      password := lib.hash salt p, role := (JsVal.str "admin").or (.str "client") }
    he hp hfresh rfl (hcmp salt p)
  rw [hlogin] at hhdr ⊢
  simp only [Outcome.token?] at hhdr
  refine ⟨rfl, rfl, ?_⟩
  have hc := tokenClaims_of_presented lib now₁ a _ _ hhdr (fun h0 => hne (by rw [hhdr, h0]))
    (jwtVerify_generateToken lib hjwt now₀ now₁ _ hlt)
  have hrole : (JsVal.str "admin").or (.str "client") = .str "admin" := by decide
  rcases postProducts_admitted lib now₁ fault st₁ a payload _ hc hrole with
    ⟨hrf, e1⟩ | ⟨hrf, _, e1⟩ | ⟨f, hrf, _, _, e1⟩ | ⟨f, hrf, _, _, _, e1⟩ |
    ⟨f, hrf, _, _, _, e1⟩ <;>
    rw [e1] <;> simp [List.prefix_iff_eq_take, hrf]

/-- Registering `eve@x` as admin on `demoState` and posting a product with the
token of the login. -/
theorem register_admin_reaches_product_handler_witness :
    (register demoLib 3 false demoState ⟨.str "eve@x", .str "pw", .str "admin"⟩).outcome.status?
      = some 201 ∧
    (login demoLib 0 false
        (register demoLib 3 false demoState ⟨.str "eve@x", .str "pw", .str "admin"⟩).state
        ⟨.str "eve@x", .str "pw"⟩).outcome.status? = some 200 ∧
    [Step.verifyToken, Step.verifyAdmin, Step.upload, Step.productHandler] <+:
      (postProducts demoLib 5 false demoState (some "Bearer 1110s111110eve@xs111110admin00100")
        (.multipart (.text "robe") (.text "longue") (.text "90")
          [⟨"image", "r.jpg", "img"⟩])).log :=
  have h := register_admin_reaches_product_handler demoLib demoLib_compare_hash
    demoLib_decode_encode 3 0 5 false demoState demoState "eve@x" "pw"
    (some "Bearer 1110s111110eve@xs111110admin00100")
    (.multipart (.text "robe") (.text "longue") (.text "90") [⟨"image", "r.jpg", "img"⟩])
    (by decide) (by decide) (by decide) (by decide) (by decide) (by decide)
  ⟨h.1, h.2.1, h.2.2.2 (by decide)⟩

/-! ## Registration -/

/-- What `register` does with a body that passes validation and whose password
is a string. -/
theorem register_valid (lib : Lib) (salt : Nat) (fault : Bool) (st : State) (b : RegisterBody)
    (s : String) (he : b.email.truthy = true) (hp : b.password.truthy = true)
    (hs : b.password = .str s) :
    register lib salt fault st b =
      match Store.insertUser fault st b.email (lib.hash salt s) (b.role.or (.str "client")) with
      | .error _ =>
        { state := st, outcome := .responded ⟨500, .message msgRegisterFailed⟩,
          log := [.bcryptHash, .insertUser] }
      | .ok st1 =>
        { state := st1, outcome := .responded ⟨201, .message msgRegisterDone⟩,
          log := [.bcryptHash, .insertUser] } := by
  simp only [register, he, hp, Bool.not_true, Bool.or_self, Bool.false_eq_true, if_false]
  rw [hs]
  simp only [bcryptHash]

/-- A body that passes validation with a password that is not a string gets no
response. -/
theorem register_not_string (lib : Lib) (salt : Nat) (fault : Bool) (st : State)
    (b : RegisterBody) (he : b.email.truthy = true) (hp : b.password.truthy = true)
    (hns : ∀ s, b.password ≠ .str s) :
    (register lib salt fault st b).outcome.status? = none := by
  simp only [register, he, hp, Bool.not_true, Bool.or_self, Bool.false_eq_true, if_false]
  cases hb : b.password with
  | str s => exact absurd hb (hns s)
  | undefined => simp [bcryptHash, Outcome.status?]
  | null => simp [bcryptHash, Outcome.status?]
  | bool x => simp [bcryptHash, Outcome.status?]
  | num x => simp [bcryptHash, Outcome.status?]
  | arr x => simp [bcryptHash, Outcome.status?]
  | obj x => simp [bcryptHash, Outcome.status?]

/-- The insert of `register` adds one row with the role it was given. -/
theorem insertUser_ok (fault : Bool) (st st1 : State) (email : JsVal) (h : String) (role : JsVal)
    (hok : Store.insertUser fault st email h role = .ok st1) :
    st1 = { users := st.users ++
              [{ id := freshId (st.users.map UserRow.id), email := email, password := h,
                 role := role }],
            products := st.products, files := st.files } := by
  unfold Store.insertUser at hok
  split at hok
  · cases hok
  · split at hok
    · cases hok
    · cases hok; rfl

/-- A role outside `client` and `admin` is stored as it comes: the claim C6 as
stated fails on the role `superuser`. -/
theorem register_role_not_enumerated :
    (register demoLib 3 false demoState ⟨.str "eve@x", .str "pw", .str "superuser"⟩).outcome.status?
      = some 201 ∧
    (register demoLib 3 false demoState ⟨.str "eve@x", .str "pw", .str "superuser"⟩).state.users =
      demoState.users ++ [⟨3, .str "eve@x", "h:pw", .str "superuser"⟩] ∧
    JsVal.str "superuser" ≠ .str "client" ∧ JsVal.str "superuser" ≠ .str "admin" := by
  decide

/-- Claim C6, amended. When a registration is answered 201, one row has been
added to the users table, and its role is the role of the request when that is
truthy and `client` otherwise. So the role is `client` whenever the body
specifies no role, and it is one of `client` and `admin` whenever the role of
the request is falsy, `client` or `admin`. -/
theorem register_stored_role (lib : Lib) (salt : Nat) (fault : Bool) (st : State)
    (b : RegisterBody) (h201 : (register lib salt fault st b).outcome.status? = some 201) :
    ∃ row, (register lib salt fault st b).state.users = st.users ++ [row] ∧
      row.role = (if b.role.truthy then b.role else .str "client") ∧
      (b.role = .undefined → row.role = .str "client") ∧
      (b.role.truthy = false ∨ b.role = .str "client" ∨ b.role = .str "admin" →
        row.role = .str "client" ∨ row.role = .str "admin") := by
  have hroles : ∀ row : UserRow, row.role = b.role.or (.str "client") →
      row.role = (if b.role.truthy then b.role else .str "client") ∧
      (b.role = .undefined → row.role = .str "client") ∧
      (b.role.truthy = false ∨ b.role = .str "client" ∨ b.role = .str "admin" →
        row.role = .str "client" ∨ row.role = .str "admin") := by
    intro row hrow
    refine ⟨hrow, ?_, ?_⟩
    · intro hu; simp [hrow, hu, JsVal.or, JsVal.truthy]
    · intro hr
      rcases hr with hr | hr | hr
      · left; simp [hrow, JsVal.or, hr]
      · left; simp [hrow, JsVal.or, hr]
      · right; simp [hrow, JsVal.or, hr, JsVal.truthy]
  by_cases hv : b.email.truthy = true ∧ b.password.truthy = true
  · obtain ⟨he, hp⟩ := hv
    cases hb : b.password with
    | str s =>
      have hreg := register_valid lib salt fault st b s he hp hb
      cases hins : Store.insertUser fault st b.email (lib.hash salt s)
          (b.role.or (.str "client")) with
      | error err =>
        rw [hins] at hreg
        simp only at hreg
        rw [hreg] at h201
        simp [Outcome.status?] at h201
      | ok st1 =>
        rw [hins] at hreg
        simp only at hreg
        rw [hreg]
        have hst := insertUser_ok _ _ _ _ _ _ hins
        subst hst
        exact ⟨_, rfl, hroles _ rfl⟩
    | _ =>
      have hnone := register_not_string lib salt fault st b he hp (by simp [hb])
      rw [hnone] at h201
      cases h201
  · have hf : b.email.truthy = false ∨ b.password.truthy = false := by
      cases h1 : b.email.truthy <;> cases h2 : b.password.truthy <;> simp [h1, h2] at hv ⊢
    rcases hf with h | h <;> simp [register, h, Outcome.status?] at h201

/-- Registering `eve@x` with the role `admin` on `demoState`. -/
theorem register_stored_role_witness :
    ∃ row, (register demoLib 3 false demoState ⟨.str "eve@x", .str "pw", .str "admin"⟩).state.users
        = demoState.users ++ [row] ∧
      row.role = (if (JsVal.str "admin").truthy then .str "admin" else .str "client") ∧
      (JsVal.str "admin" = .undefined → row.role = .str "client") ∧
      ((JsVal.str "admin").truthy = false ∨ JsVal.str "admin" = .str "client" ∨
          JsVal.str "admin" = .str "admin" →
        row.role = .str "client" ∨ row.role = .str "admin") :=
  register_stored_role demoLib 3 false demoState ⟨.str "eve@x", .str "pw", .str "admin"⟩
    (by decide)

/-- Two bodies on which the claim C7 as stated fails. The email `false` is
neither absent nor empty, and the answer is 400. The password `123` is neither
absent nor empty either: it passes the guard, the promise of `bcrypt.hash` is
rejected inside the handler, and the handler sends no response. -/
theorem register_falsy_and_nonstring :
    ((register demoLib 3 false demoState ⟨.bool false, .str "pw", .undefined⟩).outcome.status?
        = some 400 ∧
      ¬ (JsVal.bool false).missing ∧ ¬ (JsVal.str "pw").missing) ∧
    ((register demoLib 3 false demoState ⟨.str "eve@x", .num 123, .undefined⟩).outcome =
        .escaped "Illegal arguments: number, number" ∧
      ¬ (JsVal.str "eve@x").missing ∧ ¬ (JsVal.num 123).missing) := by
  decide

/-- Claim C7, amended. For a registration body whose password is a string or
falsy, the handler sends a response, and: the answer is 400, with no hashing,
no insert and the state as it was, exactly when email or password is falsy;
otherwise the password is hashed and one insert is issued, and the answer is
201 with the confirmation message and the state the insert returns when it
succeeds, 500 with the state as it was when it returns an error. -/
theorem register_contract (lib : Lib) (salt : Nat) (fault : Bool) (st : State)
    (b : RegisterBody) (hpw : b.password.typeof = "string" ∨ b.password.truthy = false) :
    (∃ r, (register lib salt fault st b).outcome = .responded r) ∧
    (((register lib salt fault st b).outcome.status? = some 400 ∧
        (register lib salt fault st b).log = [] ∧
        (register lib salt fault st b).state = st) ↔
      (b.email.truthy = false ∨ b.password.truthy = false)) ∧
    (b.email.truthy = true ∧ b.password.truthy = true →
      (register lib salt fault st b).log = [.bcryptHash, .insertUser] ∧
      ∃ s, b.password = .str s ∧
        ((∃ st1, Store.insertUser fault st b.email (lib.hash salt s)
              (if b.role.truthy then b.role else .str "client") = .ok st1 ∧
            (register lib salt fault st b).outcome =
              .responded ⟨201, .message "Utilisateur créé avec succès."⟩ ∧
            (register lib salt fault st b).state = st1) ∨
         (∃ err, Store.insertUser fault st b.email (lib.hash salt s)
              (if b.role.truthy then b.role else .str "client") = .error err ∧
            (register lib salt fault st b).outcome.status? = some 500 ∧
            (register lib salt fault st b).state = st))) := by
  by_cases hv : b.email.truthy = true ∧ b.password.truthy = true
  · obtain ⟨he, hp⟩ := hv
    have hstr : ∃ s, b.password = .str s := by
      rcases hpw with h | h
      · cases hb : b.password <;> simp [hb, JsVal.typeof] at h ⊢
      · simp [hp] at h
    obtain ⟨s, hs⟩ := hstr
    have hreg := register_valid lib salt fault st b s he hp hs
    have hor : b.role.or (.str "client") = (if b.role.truthy then b.role else .str "client") := rfl
    rw [hor] at hreg
    cases hins : Store.insertUser fault st b.email (lib.hash salt s)
        (if b.role.truthy then b.role else .str "client") with
    | error err =>
      rw [hins] at hreg
      simp only at hreg
      rw [hreg]
      refine ⟨⟨_, rfl⟩, ?_, ?_⟩
      · simp [Outcome.status?, he, hp]
      · intro _
        exact ⟨rfl, s, hs, Or.inr ⟨err, hins, rfl, rfl⟩⟩
    | ok st1 =>
      rw [hins] at hreg
      simp only at hreg
      rw [hreg]
      refine ⟨⟨_, rfl⟩, ?_, ?_⟩
      · simp [Outcome.status?, he, hp]
      · intro _
        exact ⟨rfl, s, hs, Or.inl ⟨st1, hins, by simp [msgRegisterDone], rfl⟩⟩
  · have hf : b.email.truthy = false ∨ b.password.truthy = false := by
      cases h1 : b.email.truthy <;> cases h2 : b.password.truthy <;> simp [h1, h2] at hv ⊢
    have hreg : register lib salt fault st b =
        { state := st, outcome := .responded ⟨400, .message msgRegisterRequired⟩, log := [] } := by
      rcases hf with h | h <;> simp [register, h]
    rw [hreg]
    refine ⟨⟨_, rfl⟩, ?_, ?_⟩
    · simp [Outcome.status?, hf]
    · intro h; exact absurd h hv

/-- Registering `eve@x` with the password `pw` on `demoState`. -/
theorem register_contract_witness :
    (register demoLib 3 false demoState ⟨.str "eve@x", .str "pw", .undefined⟩).outcome =
      .responded ⟨201, .message "Utilisateur créé avec succès."⟩ :=
  have h := register_contract demoLib 3 false demoState ⟨.str "eve@x", .str "pw", .undefined⟩
    (Or.inl (by decide))
  match h.2.2 ⟨by decide, by decide⟩ with
  | ⟨_, _, _, Or.inl ⟨_, _, hout, _⟩⟩ => hout
  | ⟨_, _, _, Or.inr ⟨_, _, h500, _⟩⟩ => absurd h500 (by decide)

/-! ## Product update (`routes/products.js`) -/

/-- Claim C9. Whenever the UPDATE of `PUT /products/:id` executes without a
store error, the answer is the success message with status 200, also when no
row has the id. In that case the products table is what it was. In general the
table keeps its rows in place: a row the id matches keeps its id and gets the
six values of the body, every other row is what it was; users and files are
what they were. -/
theorem routerPut_contract (lib : Lib) (fault : Bool) (st st1 : State) (id : String)
    (b : ProductFields) (hok : Store.updateProduct lib fault st id b = .ok st1) :
    (routerPutProduct lib fault st id b).outcome =
      .responded ⟨200, .message "Produit mis à jour avec succès"⟩ ∧
    (routerPutProduct lib fault st id b).state = st1 ∧
    ((∀ r ∈ st.products, lib.sqlIdEq id r.id = false) → st1 = st) ∧
    st1.products.length = st.products.length ∧
    (∀ (i : Nat) (r : ProductRow), st.products[i]? = some r →
      (lib.sqlIdEq id r.id = true →
        st1.products[i]? = some ⟨r.id, b.name, b.description, b.price, b.fabric, b.color, b.image⟩) ∧
      (lib.sqlIdEq id r.id = false → st1.products[i]? = some r)) ∧
    st1.users = st.users ∧ st1.files = st.files := by
  have hst : st1 = { st with products := st.products.map (fun r =>
      if lib.sqlIdEq id r.id then
        { r with name := b.name, description := b.description, price := b.price,
                 fabric := b.fabric, color := b.color, image := b.image }
      else r) } := by
    unfold Store.updateProduct at hok
    split at hok
    · cases hok
    · cases hok; rfl
  refine ⟨by simp [routerPutProduct, hok], by simp [routerPutProduct, hok], ?_, ?_, ?_, ?_, ?_⟩
  · intro hno
    rw [hst]
    have : st.products.map (fun r =>
        if lib.sqlIdEq id r.id then
          { r with name := b.name, description := b.description, price := b.price,
                   fabric := b.fabric, color := b.color, image := b.image }
        else r) = st.products := by
      conv_rhs => rw [← List.map_id st.products]
      apply List.map_congr_left
      intro r hr
      simp [hno r hr]
    rw [this]
  · rw [hst]; simp
  · intro i r hr
    rw [hst]
    simp only [List.getElem?_map, hr, Option.map_some']
    constructor
    · intro hm; simp [hm]
    · intro hm; simp [hm]
  · rw [hst]
  · rw [hst]

/-- Updating product 1 of `demoState`. -/
theorem routerPut_contract_witness :
    (routerPutProduct demoLib false demoState "1"
        ⟨.str "jupe", .str "courte", .num 40, .str "lin", .str "bleu", .str "j.png"⟩).outcome =
      .responded ⟨200, .message "Produit mis à jour avec succès"⟩ :=
  (routerPut_contract demoLib false demoState
    { demoState with products :=
        [⟨1, .str "jupe", .str "courte", .num 40, .str "lin", .str "bleu", .str "j.png"⟩] }
    "1" ⟨.str "jupe", .str "courte", .num 40, .str "lin", .str "bleu", .str "j.png"⟩
    (by decide)).1

/-! ## Error statuses -/

/-- Two logins on which the claim C4 as stated fails. A wrong password is an
authentication failure and a store error on the lookup is a store failure;
both are answered 400, not 401 and 500. -/
theorem login_failures_answered_400 :
    (failureKind demoEnv demoState (.login ⟨.str "bob@x", .str "wrong"⟩) = some .authentication ∧
      (handle demoEnv demoState (.login ⟨.str "bob@x", .str "wrong"⟩)).outcome.status? = some 400 ∧
      specStatus .authentication = 401) ∧
    (failureKind ⟨demoLib, 5, 3, true⟩ demoState (.login ⟨.str "bob@x", .str "pw"⟩) = some .store ∧
      (handle ⟨demoLib, 5, 3, true⟩ demoState (.login ⟨.str "bob@x", .str "pw"⟩)).outcome.status?
        = some 400 ∧
      specStatus .store = 500) := by
  decide

theorem login_status (lib : Lib) (now : Nat) (fault : Bool) (st : State) (b : LoginBody) :
    match failureKind ⟨lib, now, 0, fault⟩ st (.login b) with
    | some _ => (login lib now fault st b).outcome.status? = some 400
    | none => ∀ r, (login lib now fault st b).outcome = .responded r → r.status < 400 := by
  unfold failureKind login
  by_cases hv : (!b.email.truthy || !b.password.truthy) = true
  · simp [hv, Outcome.status?]
  · simp only [hv, if_false]
    cases hsel : Store.selectUsersByEmail fault st b.email with
    | error e => simp [Outcome.status?]
    | ok rows =>
      cases rows with
      | nil => simp [Outcome.status?]
      | cons u rest =>
        simp only
        cases hc : bcryptCompare lib b.password u.password with
        | error e => simp [Outcome.status?]
        | ok v => cases v <;> simp [Outcome.status?]

theorem register_status (lib : Lib) (salt : Nat) (fault : Bool) (st : State) (b : RegisterBody) :
    match failureKind ⟨lib, 0, salt, fault⟩ st (.register b) with
    | some k => (register lib salt fault st b).outcome.status? = some (specStatus k)
    | none => ∀ r, (register lib salt fault st b).outcome = .responded r → r.status < 400 := by
  unfold failureKind register
  by_cases hv : (!b.email.truthy || !b.password.truthy) = true
  · simp [hv, Outcome.status?, specStatus]
  · simp only [hv, if_false]
    cases hh : bcryptHash lib salt b.password with
    | error e => simp [Outcome.status?]
    | ok h =>
      simp only
      cases hins : Store.insertUser fault st b.email h (b.role.or (.str "client")) with
      | error e => simp [Outcome.status?, specStatus]
      | ok st1 => simp [Outcome.status?]

theorem postProducts_status (lib : Lib) (now : Nat) (fault : Bool) (st : State)
    (a : Option String) (p : ProductPayload) :
    match failureKind ⟨lib, now, 0, fault⟩ st (.postProducts a p) with
    | some k => (postProducts lib now fault st a p).outcome.status? = some (specStatus k)
    | none => ∀ r, (postProducts lib now fault st a p).outcome = .responded r → r.status < 400 := by
  cases h : tokenClaims lib now a with
  | none =>
    simp only [failureKind, h]
    exact (postProducts_of_no_claims lib now fault st a p h).1
  | some c =>
    simp only [failureKind, h]
    by_cases hr : c.role = .str "admin"
    · have hinc_none : p.imageFile = none → p.incomplete := fun hf => by
        simp [ProductPayload.incomplete, hf]
      rcases postProducts_admitted lib now fault st a p c h hr with
        ⟨hrf, e⟩ | ⟨hrf, hf, e⟩ | ⟨f, hrf, hf, hi, e⟩ | ⟨f, hrf, hf, hi, hfa, e⟩ |
        ⟨f, hrf, hf, hi, hfa, e⟩
      · simp [hr, hrf, e]
      · simp [hr, hrf, hinc_none hf, e, Outcome.status?, specStatus]
      · simp [hr, hrf, hi, e, Outcome.status?, specStatus]
      · subst hfa; simp [hr, hrf, hi, e, Outcome.status?, specStatus]
      · subst hfa; simp [hr, hrf, hi, e]
    · rw [postProducts_of_not_admin lib now fault st a p c h hr]
      simp [hr, Outcome.status?, specStatus]

/-- Claim C4, amended. Every error response uses the status of its error kind,
validation 400, missing or invalid token 401, role other than admin 403,
store failure 500, except at `POST /api/login`, where bad credentials and a
store error on the lookup are both answered 400. On a request on which no
check fails no handler answers with an error status. -/
theorem error_status_by_kind (env : Env) (st : State) (req : Request) :
    match failureKind env st req with
    | some k => (handle env st req).outcome.status? = some (codeStatus req k)
    | none => ∀ r, (handle env st req).outcome = .responded r → r.status < 400 := by
  cases req with
  | getProducts =>
    cases hf : env.fault <;>
      simp [failureKind, handle, getProducts, Store.selectProducts, hf, Outcome.status?,
        codeStatus, specStatus]
  | register b => exact register_status env.lib env.salt env.fault st b
  | login b => exact login_status env.lib env.now env.fault st b
  | postProducts a p => exact postProducts_status env.lib env.now env.fault st a p
  | routerGet =>
    cases hf : env.fault <;>
      simp [failureKind, handle, routerGetProducts, Store.selectProducts, hf, Outcome.status?,
        codeStatus, specStatus]
  | routerPost b =>
    cases hf : env.fault <;>
      simp [failureKind, handle, routerPostProduct, Store.insertProduct, hf, Outcome.status?,
        codeStatus, specStatus]
  | routerPut id b =>
    cases hf : env.fault <;>
      simp [failureKind, handle, routerPutProduct, Store.updateProduct, hf, Outcome.status?,
        codeStatus, specStatus]

/-! ## What an error response leaves behind -/

/-- Two requests on which the claim C5 as stated fails. An admin posts a
product with an image and no name: the answer is 400 and the image is in
`public/images/` all the same. An admin posts a complete product and the
insert fails: the answer is 500 and the image is there as well. -/
theorem rejected_product_keeps_upload :
    ((handle demoEnv demoState
        (.postProducts (some "Bearer 10s1111110root@xs111110admin00100")
          (.multipart .absent (.text "longue") (.text "90")
            [⟨"image", "r.jpg", "img"⟩]))).outcome.status? = some 400 ∧
      (handle demoEnv demoState
        (.postProducts (some "Bearer 10s1111110root@xs111110admin00100")
          (.multipart .absent (.text "longue") (.text "90")
            [⟨"image", "r.jpg", "img"⟩]))).state.files = [("1.png", "data"), ("5.png", "img")]) ∧
    ((handle ⟨demoLib, 5, 3, true⟩ demoState
        (.postProducts (some "Bearer 10s1111110root@xs111110admin00100")
          (.multipart (.text "robe") (.text "longue") (.text "90")
            [⟨"image", "r.jpg", "img"⟩]))).outcome.status? = some 500 ∧
      (handle ⟨demoLib, 5, 3, true⟩ demoState
        (.postProducts (some "Bearer 10s1111110root@xs111110admin00100")
          (.multipart (.text "robe") (.text "longue") (.text "90")
            [⟨"image", "r.jpg", "img"⟩]))).state.files = [("1.png", "data"), ("5.png", "img")]) ∧
    demoState.files = [("1.png", "data")] := by
  decide

theorem register_error_state (lib : Lib) (salt : Nat) (fault : Bool) (st : State)
    (b : RegisterBody) (s : Nat) (hs : (register lib salt fault st b).outcome.status? = some s)
    (herr : 400 ≤ s) : (register lib salt fault st b).state = st := by
  unfold register at hs ⊢
  by_cases hv : (!b.email.truthy || !b.password.truthy) = true
  · simp [hv]
  · simp only [hv, if_false] at hs ⊢
    cases hh : bcryptHash lib salt b.password with
    | error e => simp
    | ok h =>
      simp only [hh] at hs ⊢
      cases hins : Store.insertUser fault st b.email h (b.role.or (.str "client")) with
      | error e => simp
      | ok st1 =>
        simp [hins, Outcome.status?] at hs
        omega

theorem login_state (lib : Lib) (now : Nat) (fault : Bool) (st : State) (b : LoginBody) :
    (login lib now fault st b).state = st := by
  unfold login
  by_cases hv : (!b.email.truthy || !b.password.truthy) = true
  · simp [hv]
  · simp only [hv, if_false]
    cases hsel : Store.selectUsersByEmail fault st b.email with
    | error e => simp
    | ok rows =>
      cases rows with
      | nil => simp
      | cons u rest =>
        simp only
        cases hc : bcryptCompare lib b.password u.password with
        | error e => simp
        | ok v => cases v <;> simp

theorem postProducts_error_state (lib : Lib) (now : Nat) (fault : Bool) (st : State)
    (a : Option String) (p : ProductPayload) (s : Nat)
    (hs : (postProducts lib now fault st a p).outcome.status? = some s) (herr : 400 ≤ s) :
    (postProducts lib now fault st a p).state.users = st.users ∧
    (postProducts lib now fault st a p).state.products = st.products ∧
    (postProducts lib now fault st a p).state.files =
      match storedUpload ⟨lib, now, 0, fault⟩ (.postProducts a p),
        discardedUpload ⟨lib, now, 0, fault⟩ (.postProducts a p) with
      | some f, _ => writeFile (uploadFilename lib now f.originalname) f.content st.files
      | none, some f => removeFile (uploadFilename lib now f.originalname) st.files
      | none, none => st.files := by
  cases h : tokenClaims lib now a with
  | none =>
    simp only [storedUpload, discardedUpload, h]
    rw [(postProducts_of_no_claims lib now fault st a p h).2.2]
    exact ⟨rfl, rfl, rfl⟩
  | some c =>
    simp only [storedUpload, discardedUpload, h]
    by_cases hr : c.role = .str "admin"
    · rcases refused_or_accepted p with ⟨hrf0, hnf⟩ | ⟨hrf0, hnd⟩
      · rcases postProducts_admitted lib now fault st a p c h hr with
          ⟨hrf, e⟩ | ⟨hrf, hf, e⟩ | ⟨f, hrf, hf, hi, e⟩ | ⟨f, hrf, hf, hi, hfa, e⟩ |
          ⟨f, hrf, hf, hi, hfa, e⟩
        · rw [e]
          cases hd : p.discarded <;> simp [hr, hnf, hd]
        all_goals simp [hrf0] at hrf
      · rcases postProducts_admitted lib now fault st a p c h hr with
          ⟨hrf, e⟩ | ⟨hrf, hf, e⟩ | ⟨f, hrf, hf, hi, e⟩ | ⟨f, hrf, hf, hi, hfa, e⟩ |
          ⟨f, hrf, hf, hi, hfa, e⟩
        · simp [hrf0] at hrf
        · rw [e]; simp [hr, hf, hnd]
        · rw [e]; simp [hr, hf]
        · rw [e]; simp [hr, hf]
        · rw [e] at hs
          simp [Outcome.status?] at hs
          omega
    · rw [postProducts_of_not_admin lib now fault st a p c h hr]
      simp [hr]

/-- Claim C5, amended. For every request to any endpoint that is answered
with an error status (400, 401, 403 or 500), the users table and the products
table are the same after the request as before it. The files of the image
directory are the same as well, unless the request is a `POST /api/products`
whose token verifies with the role `admin` and which carries an image file.
When multer accepts the form, that file has been written under its generated
name before the handler validates and inserts, and it stays. When multer
refuses the form after the image (a second file follows it), multer removes
the name it has written, and the directory is what it was without any file of
that name. -/
theorem error_leaves_tables (env : Env) (st : State) (req : Request) (s : Nat)
    (hs : (handle env st req).outcome.status? = some s)
    (herr : s = 400 ∨ s = 401 ∨ s = 403 ∨ s = 500) :
    (handle env st req).state.users = st.users ∧
    (handle env st req).state.products = st.products ∧
    (handle env st req).state.files =
      match storedUpload env req, discardedUpload env req with
      | some f, _ =>
        writeFile (uploadFilename env.lib env.now f.originalname) f.content st.files
      | none, some f => removeFile (uploadFilename env.lib env.now f.originalname) st.files
      | none, none => st.files := by
  have h400 : 400 ≤ s := by omega
  cases req with
  | getProducts =>
    cases hf : env.fault <;>
      simp [handle, getProducts, Store.selectProducts, hf, storedUpload, discardedUpload]
  | register b =>
    have := register_error_state env.lib env.salt env.fault st b s hs h400
    simp only [handle, storedUpload, discardedUpload]
    rw [this]
    exact ⟨rfl, rfl, rfl⟩
  | login b =>
    have := login_state env.lib env.now env.fault st b
    simp only [handle, storedUpload, discardedUpload]
    rw [this]
    exact ⟨rfl, rfl, rfl⟩
  | postProducts a p => exact postProducts_error_state env.lib env.now env.fault st a p s hs h400
  | routerGet =>
    cases hf : env.fault <;>
      simp [handle, routerGetProducts, Store.selectProducts, hf, storedUpload, discardedUpload]
  | routerPost b =>
    cases hf : env.fault
    · simp [handle, routerPostProduct, Store.insertProduct, hf, Outcome.status?] at hs
      omega
    · simp [handle, routerPostProduct, Store.insertProduct, hf, storedUpload, discardedUpload]
  | routerPut id b =>
    cases hf : env.fault
    · simp [handle, routerPutProduct, Store.updateProduct, hf, Outcome.status?] at hs
      omega
    · simp [handle, routerPutProduct, Store.updateProduct, hf, storedUpload, discardedUpload]

/-- A client token on `POST /api/products` with an image: 403, and nothing
has changed. -/
theorem error_leaves_tables_witness :
    (handle demoEnv demoState
      (.postProducts (some "Bearer 110s111110bob@xs1111110client00100")
        (.multipart (.text "robe") (.text "longue") (.text "90") [⟨"image", "r.jpg", "img"⟩]))).state.users
      = demoState.users ∧
    (handle demoEnv demoState
      (.postProducts (some "Bearer 110s111110bob@xs1111110client00100")
        (.multipart (.text "robe") (.text "longue") (.text "90") [⟨"image", "r.jpg", "img"⟩]))).state.products
      = demoState.products ∧
    (handle demoEnv demoState
      (.postProducts (some "Bearer 110s111110bob@xs1111110client00100")
        (.multipart (.text "robe") (.text "longue") (.text "90") [⟨"image", "r.jpg", "img"⟩]))).state.files
      = demoState.files :=
  error_leaves_tables demoEnv demoState
    (.postProducts (some "Bearer 110s111110bob@xs1111110client00100")
      (.multipart (.text "robe") (.text "longue") (.text "90") [⟨"image", "r.jpg", "img"⟩]))
    403 (by decide) (by decide)

/-! ## The access checks and the product handler on `demoState` -/

/-- A client token on `POST /api/products`: 403 after the two checks, state
untouched. -/
theorem postProducts_access_control_witness :
    (postProducts demoLib 5 false demoState (some "Bearer 110s111110bob@xs1111110client00100")
      (.multipart (.text "robe") (.text "longue") (.text "90")
        [⟨"image", "r.jpg", "img"⟩])).outcome.status? = some 403 ∧
    (postProducts demoLib 5 false demoState (some "Bearer 110s111110bob@xs1111110client00100")
      (.multipart (.text "robe") (.text "longue") (.text "90")
        [⟨"image", "r.jpg", "img"⟩])).log = [.verifyToken, .verifyAdmin] ∧
    (postProducts demoLib 5 false demoState (some "Bearer 110s111110bob@xs1111110client00100")
      (.multipart (.text "robe") (.text "longue") (.text "90")
        [⟨"image", "r.jpg", "img"⟩])).state = demoState :=
  (postProducts_access_control demoLib 5 false demoState
    (some "Bearer 110s111110bob@xs1111110client00100")
    (.multipart (.text "robe") (.text "longue") (.text "90") [⟨"image", "r.jpg", "img"⟩])).2.1
    ⟨2, .str "bob@x", .str "client", 0, 3600⟩ (by decide) (by decide)

/-- An admin token on `POST /api/products` with all four parts: one insert,
201, and the row carries the generated filename `5.png`. -/
theorem productHandler_contract_witness :
    (postProducts demoLib 5 false demoState (some "Bearer 10s1111110root@xs111110admin00100")
      (.multipart (.text "robe") (.text "longue") (.text "90")
        [⟨"image", "r.jpg", "img"⟩])).state.products =
      demoState.products ++
        [⟨2, .str "robe", .str "longue", .str "90", .null, .null, .str "5.png"⟩] :=
  match (productHandler_contract demoLib 5 false demoState
      (some "Bearer 10s1111110root@xs111110admin00100")
      (.multipart (.text "robe") (.text "longue") (.text "90") [⟨"image", "r.jpg", "img"⟩])
      ⟨1, .str "root@x", .str "admin", 0, 3600⟩ (by decide) (by decide)).2 (by decide) with
  | ⟨_, hnot⟩ =>
    match hnot (by decide) with
    | ⟨f, hf, _, hok, _⟩ => by
      have hf2 : f = ⟨"image", "r.jpg", "img"⟩ :=
        (Option.some.inj ((show (ProductPayload.multipart (.text "robe") (.text "longue")
          (.text "90") [⟨"image", "r.jpg", "img"⟩]).imageFile =
            some ⟨"image", "r.jpg", "img"⟩ by decide).symm.trans hf)).symm
      subst hf2
      exact (hok rfl).2

/-- Login with a wrong password on `demoState`: an authentication failure,
answered 400. -/
theorem error_status_by_kind_witness :
    (handle demoEnv demoState (.login ⟨.str "bob@x", .str "wrong"⟩)).outcome.status? = some 400 :=
  error_status_by_kind demoEnv demoState (.login ⟨.str "bob@x", .str "wrong"⟩)

end Matoura
